import Mathlib

/-!
Verification development for the rxdeb Radiant script debugger
(`src/rxd/*`, `src/crypto/*`).

The C++ sources are shallowly embedded: byte strings (`valtype`,
`std::vector<uint8_t>`) become `List Nat` whose entries are below 256 by
construction, `int64_t` becomes `Int`, `uint32_t`/`size_t` become `Nat`
with explicit `% 2 ^ 32` where the C++ performs a narrowing conversion,
and fallible operations return `Option`.  Stacks (`std::vector<valtype>`
with `back()` as the top) are embedded as lists with the top at the head;
each vector operation is translated index-by-index under that convention.
`std::set` is embedded as a duplicate-free list with membership insert.
-/

namespace Rxd

/-- Byte strings (`valtype = std::vector<uint8_t>`); entries are < 256 by
construction at every producer. -/
abbrev valtype := List Nat

/-- Little-endian value of a byte string: the accumulation
`result |= v[i] << (8*i)` performed by the deserializers, read as a plain
natural number. -/
def leNat : valtype → Nat
  | [] => 0
  | b :: rest => b + 256 * leNat rest

/-- Fuelled digit loop for `ScriptNumSerialize`'s
`while (absvalue) { result.push_back(absvalue & 0xff); absvalue >>= 8; }`.
The fuel only drives termination; `serLoop_eq` below recovers the loop's
defining equation. -/
def serLoopAux : Nat → Nat → List Nat
  | 0, _ => []
  | fuel + 1, a => if a = 0 then [] else a % 256 :: serLoopAux fuel (a / 256)

/-- The little-endian base-256 digits of `a` (empty for `a = 0`). -/
def serLoop (a : Nat) : List Nat := serLoopAux a a

/-- `RxdVMAdapter::Impl::ScriptNumSerialize` (rxd_vm_adapter.cpp:938-958);
`neg = n < 0`, `absvalue = |n|`, `result = serLoop absvalue` are inlined.
`result.back() & 0x80` is embedded as `128 ≤ last` (digits are < 256), and
`result.back() |= 0x80` as `last + 128` (that bit is clear in this branch). -/
def ScriptNumSerialize (n : Int) : valtype :=
  if n = 0 then []
  else if 128 ≤ (serLoop n.natAbs).getLastD 0 then
    serLoop n.natAbs ++ [if n < 0 then 128 else 0]
  else if n < 0 then
    (serLoop n.natAbs).dropLast ++ [(serLoop n.natAbs).getLastD 0 + 128]
  else
    serLoop n.natAbs

/-- `RxdVMAdapter::Impl::ScriptNumDeserialize` (rxd_vm_adapter.cpp:920-936).
The source accumulates the bytes little-endian into an `int64_t` and, when
the most significant byte has its top bit set (`v.back() & 0x80`, here
`128 ≤ last`), clears that bit (`result &= ~(0x80LL << (8 * (v.size() - 1)))`,
here subtraction of `128 * 256 ^ (len - 1)`, equal to the mask because the
bit is set) and negates.  Note the source performs NO length check: the
function is total and cannot signal an error. -/
def ScriptNumDeserialize (v : valtype) : Int :=
  if v = [] then 0
  else
    let result := leNat v
    if 128 ≤ v.getLastD 0 then
      -((result : Int) - 128 * (256 : Int) ^ (v.length - 1))
    else
      (result : Int)


/-- `RxdVMAdapter::Impl::CastToBool` (rxd_vm_adapter.cpp:908-918): true iff
some byte is non-zero, except that a lone `0x80` in the last position
(negative zero) is false. -/
def CastToBool : valtype → Bool
  | [] => false
  | [b] => decide (b ≠ 0) && decide (b ≠ 128)
  | b :: rest => if b ≠ 0 then true else CastToBool rest

/-- `enum class ScriptError` (rxd_vm_adapter.h:26-81; the `ERROR_COUNT`
sentinel is omitted).  Note the enumeration has no `DIV_BY_ZERO`,
`MOD_BY_ZERO`, `INVALID_NUMBER_RANGE`, `INVALID_TX_INPUT_INDEX` or
`INVALID_TX_OUTPUT_INDEX` variants. -/
inductive ScriptError where
  | OK
  | UNKNOWN
  | EVAL_FALSE
  | OP_RETURN
  | SCRIPT_SIZE
  | PUSH_SIZE
  | OP_COUNT
  | STACK_SIZE
  | SIG_COUNT
  | PUBKEY_COUNT
  | VERIFY
  | EQUALVERIFY
  | CHECKMULTISIGVERIFY
  | CHECKSIGVERIFY
  | NUMEQUALVERIFY
  | BAD_OPCODE
  | DISABLED_OPCODE
  | INVALID_STACK_OPERATION
  | INVALID_ALTSTACK_OPERATION
  | UNBALANCED_CONDITIONAL
  | SIG_HASHTYPE
  | SIG_DER
  | MINIMALDATA
  | SIG_PUSHONLY
  | SIG_HIGH_S
  | SIG_NULLDUMMY
  | PUBKEYTYPE
  | CLEANSTACK
  | MINIMALIF
  | SIG_NULLFAIL
  | NEGATIVE_LOCKTIME
  | UNSATISFIED_LOCKTIME
  | SIG_BADLENGTH
  | INVALID_REFERENCE
  | REFERENCE_NOT_FOUND
  | SINGLETON_MISMATCH
  | INVALID_STATE_SEPARATOR
  | INTROSPECTION_CONTEXT_UNAVAILABLE
  deriving DecidableEq

/-- `Limits::MAX_SCRIPT_ELEMENT_SIZE` (rxd_params.h:51). -/
def MAX_SCRIPT_ELEMENT_SIZE : Nat := 32000000

/-- `Limits::MAX_STACK_SIZE` (rxd_params.h:63). -/
def MAX_STACK_SIZE : Nat := 32000000

/-! Opcode byte values from `enum opcodetype` (rxd_script.h:19-221). -/

def OP_PUSHDATA1 : Nat := 0x4c
def OP_PUSHDATA2 : Nat := 0x4d
def OP_PUSHDATA4 : Nat := 0x4e
def OP_1NEGATE : Nat := 0x4f
def OP_1 : Nat := 0x51
def OP_16 : Nat := 0x60
def OP_NOP : Nat := 0x61
def OP_IF : Nat := 0x63
def OP_NOTIF : Nat := 0x64
def OP_ELSE : Nat := 0x67
def OP_ENDIF : Nat := 0x68
def OP_VERIFY : Nat := 0x69
def OP_RETURN : Nat := 0x6a
def OP_TOALTSTACK : Nat := 0x6b
def OP_FROMALTSTACK : Nat := 0x6c
def OP_2DROP : Nat := 0x6d
def OP_2DUP : Nat := 0x6e
def OP_3DUP : Nat := 0x6f
def OP_IFDUP : Nat := 0x73
def OP_DEPTH : Nat := 0x74
def OP_DROP : Nat := 0x75
def OP_DUP : Nat := 0x76
def OP_NIP : Nat := 0x77
def OP_OVER : Nat := 0x78
def OP_PICK : Nat := 0x79
def OP_ROLL : Nat := 0x7a
def OP_ROT : Nat := 0x7b
def OP_SWAP : Nat := 0x7c
def OP_TUCK : Nat := 0x7d
def OP_CAT : Nat := 0x7e
def OP_SPLIT : Nat := 0x7f
def OP_SIZE : Nat := 0x82
def OP_AND : Nat := 0x84
def OP_OR : Nat := 0x85
def OP_XOR : Nat := 0x86
def OP_EQUAL : Nat := 0x87
def OP_EQUALVERIFY : Nat := 0x88
def OP_1ADD : Nat := 0x8b
def OP_1SUB : Nat := 0x8c
def OP_NEGATE : Nat := 0x8f
def OP_ABS : Nat := 0x90
def OP_NOT : Nat := 0x91
def OP_0NOTEQUAL : Nat := 0x92
def OP_ADD : Nat := 0x93
def OP_SUB : Nat := 0x94
def OP_MUL : Nat := 0x95
def OP_DIV : Nat := 0x96
def OP_MOD : Nat := 0x97
def OP_BOOLAND : Nat := 0x9a
def OP_BOOLOR : Nat := 0x9b
def OP_NUMEQUAL : Nat := 0x9c
def OP_NUMEQUALVERIFY : Nat := 0x9d
def OP_NUMNOTEQUAL : Nat := 0x9e
def OP_LESSTHAN : Nat := 0x9f
def OP_GREATERTHAN : Nat := 0xa0
def OP_LESSTHANOREQUAL : Nat := 0xa1
def OP_GREATERTHANOREQUAL : Nat := 0xa2
def OP_MIN : Nat := 0xa3
def OP_MAX : Nat := 0xa4
def OP_WITHIN : Nat := 0xa5
def OP_SHA256 : Nat := 0xa8
def OP_HASH160 : Nat := 0xa9
def OP_HASH256 : Nat := 0xaa
def OP_CHECKSIG : Nat := 0xac
def OP_CHECKSIGVERIFY : Nat := 0xad
def OP_NOP1 : Nat := 0xb0
def OP_NOP4 : Nat := 0xb3
def OP_NOP5 : Nat := 0xb4
def OP_NOP6 : Nat := 0xb5
def OP_NOP7 : Nat := 0xb6
def OP_NOP8 : Nat := 0xb7
def OP_NOP9 : Nat := 0xb8
def OP_NOP10 : Nat := 0xb9
def OP_STATESEPARATOR : Nat := 0xbd
def OP_INPUTINDEX : Nat := 0xc0
def OP_TXVERSION : Nat := 0xc2
def OP_TXINPUTCOUNT : Nat := 0xc3
def OP_TXOUTPUTCOUNT : Nat := 0xc4
def OP_TXLOCKTIME : Nat := 0xc5
def OP_UTXOVALUE : Nat := 0xc6
def OP_UTXOBYTECODE : Nat := 0xc7
def OP_INPUTSEQUENCENUMBER : Nat := 0xcb
def OP_OUTPUTVALUE : Nat := 0xcc
def OP_OUTPUTBYTECODE : Nat := 0xcd
def OP_PUSHINPUTREF : Nat := 0xd0
def OP_REQUIREINPUTREF : Nat := 0xd1
def OP_DISALLOWPUSHINPUTREF : Nat := 0xd2
def OP_DISALLOWPUSHINPUTREFSIBLING : Nat := 0xd3
def OP_PUSHINPUTREFSINGLETON : Nat := 0xd8

/-- `CRxdOutPoint` (rxd_tx.h): 32-byte txid plus output index. -/
structure CRxdOutPoint where
  txid : List Nat
  n : Nat
  deriving DecidableEq

/-- `CRxdTxIn` (rxd_tx.h). -/
structure CRxdTxIn where
  prevout : CRxdOutPoint
  scriptSig : List Nat
  nSequence : Nat
  deriving DecidableEq

/-- `CRxdTxOut` (rxd_tx.h). -/
structure CRxdTxOut where
  nValue : Int
  scriptPubKey : List Nat
  deriving DecidableEq

/-- `CRxdTx` (rxd_tx.h). -/
structure CRxdTx where
  nVersion : Int
  vin : List CRxdTxIn
  vout : List CRxdTxOut
  nLockTime : Nat
  deriving DecidableEq

/-- A default-constructed `CRxdTx` (`nVersion = 2`, `nLockTime = 0`). -/
def dummyTx : CRxdTx := ⟨2, [], [], 0⟩

/-- `Coin` (rxd_context.h:23-32). -/
structure Coin where
  value : Int
  scriptPubKey : List Nat
  height : Nat
  isCoinbase : Bool
  deriving DecidableEq

/-- A default-constructed `Coin`. -/
def emptyCoin : Coin := ⟨0, [], 0, false⟩

/-- `PushRefScriptSummary` (rxd_context.h:42-50); the four `std::set`s
are embedded as duplicate-free lists. -/
structure PushRefScriptSummary where
  value : Int
  pushRefSet : List valtype
  requireRefSet : List valtype
  disallowSiblingRefSet : List valtype
  singletonRefSet : List valtype
  codeScriptHash : valtype
  stateSeparatorByteIndex : Nat
  deriving DecidableEq

/-- `std::set::insert`, on the duplicate-free-list embedding of sets. -/
def insertSet (x : valtype) (s : List valtype) : List valtype :=
  if x ∈ s then s else s ++ [x]

/-- Modelled from the spec: `CRxdScript::GetOp` is declared in
src/rxd/rxd_script.h:293 but its implementation is not among the provided
sources.  Modelled from spec §3 (a script is small-integer opcodes,
push-data prefixes `0x01..=0x4b` whose prefix is the length, `0x4c` with a
one-byte length, `0x4d` with a two-byte little-endian length, `0x4e` with
a four-byte length, and other opcodes with no inline data) and §4.5 (for
the five reference opcodes "the next 36 script bytes are the reference
payload (they are consumed by C1 as the push-data)"); reads past the end
of the script fail, and non-push opcodes clear the data operand (as the
GetOp test at src/tests/rxd/rxd_script_tests.cpp:164-166 requires).
Returns `(opcode, pushData, newPc)`. -/
def GetOp (script : List Nat) (pc : Nat) : Option (Nat × valtype × Nat) :=
  match script.drop pc with
  | [] => none
  | b :: rest =>
    if b ≤ 0x4b then
      if rest.length < b then none
      else some (b, rest.take b, pc + 1 + b)
    else if b = OP_PUSHDATA1 then
      match rest with
      | [] => none
      | len :: rest2 =>
        if rest2.length < len then none
        else some (b, rest2.take len, pc + 2 + len)
    else if b = OP_PUSHDATA2 then
      match rest with
      | l0 :: l1 :: rest2 =>
        let len := l0 + 256 * l1
        if rest2.length < len then none
        else some (b, rest2.take len, pc + 3 + len)
      | _ => none
    else if b = OP_PUSHDATA4 then
      match rest with
      | l0 :: l1 :: l2 :: l3 :: rest2 =>
        let len := l0 + 256 * l1 + 65536 * l2 + 16777216 * l3
        if rest2.length < len then none
        else some (b, rest2.take len, pc + 5 + len)
      | _ => none
    else if b = OP_PUSHINPUTREF ∨ b = OP_REQUIREINPUTREF ∨
        b = OP_DISALLOWPUSHINPUTREF ∨ b = OP_DISALLOWPUSHINPUTREFSIBLING ∨
        b = OP_PUSHINPUTREFSINGLETON then
      if rest.length < 36 then none
      else some (b, rest.take 36, pc + 37)
    else
      some (b, [], pc + 1)

/-- One iteration body of the `while (script.GetOp(...))` switch in
`RxdExecutionContext::Impl::ComputePushRefSummary` (rxd_context.cpp:71-107).
`byteIndex` is the byte offset at which the opcode starts (the source
variable holds the previous iteration's end offset, which is that same
value).  A push whose length is not 36 is silently skipped — no error
value exists in the return type. -/
def summaryStep (acc : PushRefScriptSummary) (opcode : Nat) (data : valtype)
    (byteIndex : Nat) : PushRefScriptSummary :=
  if opcode = OP_PUSHINPUTREF then
    if data.length = 36 then { acc with pushRefSet := insertSet data acc.pushRefSet } else acc
  else if opcode = OP_REQUIREINPUTREF then
    if data.length = 36 then { acc with requireRefSet := insertSet data acc.requireRefSet } else acc
  else if opcode = OP_DISALLOWPUSHINPUTREFSIBLING then
    if data.length = 36 then
      { acc with disallowSiblingRefSet := insertSet data acc.disallowSiblingRefSet }
    else acc
  else if opcode = OP_PUSHINPUTREFSINGLETON then
    if data.length = 36 then
      { acc with singletonRefSet := insertSet data acc.singletonRefSet }
    else acc
  else if opcode = OP_STATESEPARATOR then
    if acc.stateSeparatorByteIndex = 0xFFFFFFFF then
      { acc with stateSeparatorByteIndex := byteIndex }
    else acc
  else acc

/-- The `while (script.GetOp(pc, opcode, data))` loop of
`ComputePushRefSummary`, fuelled (each successful `GetOp` advances `pc` by
at least one byte, so `script.length + 1` fuel runs it to completion). -/
def summaryLoop (script : List Nat) : Nat → Nat → PushRefScriptSummary →
    PushRefScriptSummary
  | 0, _, acc => acc
  | fuel + 1, pc, acc =>
    match GetOp script pc with
    | none => acc
    | some (opcode, data, newPc) =>
      summaryLoop script fuel newPc (summaryStep acc opcode data pc)

/-- `RxdExecutionContext::Impl::ComputePushRefSummary`
(rxd_context.cpp:61-110). -/
def ComputePushRefSummary (script : List Nat) : PushRefScriptSummary :=
  summaryLoop script (script.length + 1) 0
    { value := 0, pushRefSet := [], requireRefSet := [],
      disallowSiblingRefSet := [], singletonRefSet := [],
      codeScriptHash := [], stateSeparatorByteIndex := 0xFFFFFFFF }

/-- `RxdExecutionContext` (rxd_context.cpp): the constructor-stored state
(`tx`, `inputCoins`, `inputIndex`).  The cached reference summaries the
constructor precomputes are recoverable via `ComputePushRefSummary`. -/
structure RxdExecutionContext where
  tx : Option CRxdTx
  inputCoins : List Coin
  inputIndex : Nat
  deriving DecidableEq

namespace RxdExecutionContext

/-- `GetInputIndex` (rxd_context.cpp:127-129). -/
def GetInputIndex (ctx : RxdExecutionContext) : Nat := ctx.inputIndex

/-- `GetInputCount` (rxd_context.cpp:131-133). -/
def GetInputCount (ctx : RxdExecutionContext) : Nat :=
  match ctx.tx with
  | some tx => tx.vin.length
  | none => 0

/-- `GetOutputCount` (rxd_context.cpp:135-137). -/
def GetOutputCount (ctx : RxdExecutionContext) : Nat :=
  match ctx.tx with
  | some tx => tx.vout.length
  | none => 0

/-- `GetTxVersion` (rxd_context.cpp:139-141). -/
def GetTxVersion (ctx : RxdExecutionContext) : Int :=
  match ctx.tx with
  | some tx => tx.nVersion
  | none => 0

/-- `GetLockTime` (rxd_context.cpp:143-145). -/
def GetLockTime (ctx : RxdExecutionContext) : Nat :=
  match ctx.tx with
  | some tx => tx.nLockTime
  | none => 0

/-- `GetUtxoValue` (rxd_context.cpp:153-156): out-of-range indices return
`0` — there is no error channel. -/
def GetUtxoValue (ctx : RxdExecutionContext) (index : Nat) : Int :=
  if ctx.inputCoins.length ≤ index then 0
  else (ctx.inputCoins.getD index emptyCoin).value

/-- `GetUtxoBytecode` (rxd_context.cpp:158-162): out-of-range indices
return the empty script. -/
def GetUtxoBytecode (ctx : RxdExecutionContext) (index : Nat) : List Nat :=
  if ctx.inputCoins.length ≤ index then []
  else (ctx.inputCoins.getD index emptyCoin).scriptPubKey

/-- `GetInputSequence` (rxd_context.cpp:181-184). -/
def GetInputSequence (ctx : RxdExecutionContext) (index : Nat) : Nat :=
  match ctx.tx with
  | none => 0
  | some tx =>
    if tx.vin.length ≤ index then 0
    else (tx.vin.getD index ⟨⟨List.replicate 32 0, 0xffffffff⟩, [], 0xffffffff⟩).nSequence

/-- `GetOutputValue` (rxd_context.cpp:186-189): out-of-range indices
return `0` — there is no error channel. -/
def GetOutputValue (ctx : RxdExecutionContext) (index : Nat) : Int :=
  match ctx.tx with
  | none => 0
  | some tx =>
    if tx.vout.length ≤ index then 0
    else (tx.vout.getD index ⟨-1, []⟩).nValue

/-- `GetOutputBytecode` (rxd_context.cpp:191-194). -/
def GetOutputBytecode (ctx : RxdExecutionContext) (index : Nat) : List Nat :=
  match ctx.tx with
  | none => []
  | some tx =>
    if tx.vout.length ≤ index then []
    else (tx.vout.getD index ⟨-1, []⟩).scriptPubKey

/-- `IsValidInputIndex` (rxd_context.cpp:368-370). -/
def IsValidInputIndex (ctx : RxdExecutionContext) (index : Nat) : Bool :=
  index < ctx.inputCoins.length

/-- `IsValidOutputIndex` (rxd_context.cpp:372-374). -/
def IsValidOutputIndex (ctx : RxdExecutionContext) (index : Nat) : Bool :=
  match ctx.tx with
  | none => false
  | some tx => index < tx.vout.length

end RxdExecutionContext

/-- `CreateMinimalContext` (rxd_context.cpp:402-406): a default
transaction, no coins, input index 0. -/
def CreateMinimalContext : RxdExecutionContext := ⟨some dummyTx, [], 0⟩

/-- `VMState` (rxd_vm_adapter.h:91-107). -/
structure VMState where
  stack : List valtype
  altstack : List valtype
  script : List Nat
  pc : Nat
  opIndex : Nat
  opCount : Nat
  done : Bool
  success : Bool
  error : ScriptError
  vfExec : List Bool
  pushRefs : List valtype
  requireRefs : List valtype
  singletonRefs : List valtype
  deriving DecidableEq

/-- A value-initialized `VMState{}` as produced by `Reset()`
(rxd_vm_adapter.cpp:114-123). -/
def VMState.initial : VMState :=
  ⟨[], [], [], 0, 0, 0, false, false, .OK, [], [], [], []⟩

/-- The `int64_t idx` → `unsigned int` narrowing conversion performed when
the adapter passes a deserialized script number to the context's
index-taking queries. -/
def toUInt32 (idx : Int) : Nat := (idx % (2 ^ 32)).toNat

/-- The fall-through end of `ExecuteOpcode` (rxd_vm_adapter.cpp:899-904):
cases that `break` out of the switch still run the combined stack-size
check before returning `OK`. -/
def finishOp (s : VMState) : ScriptError × VMState :=
  if MAX_STACK_SIZE < s.stack.length + s.altstack.length then (.STACK_SIZE, s)
  else (.OK, s)

/-- `RxdVMAdapter::Impl::ExecuteOpcode` (rxd_vm_adapter.cpp:214-905),
translated branch by branch (C++ `/` and `%` on `int64_t` truncate toward
zero: `Int.tdiv`/`Int.tmod`).  The mutated `currentState` is returned next
to the error code, so mutations performed before an error return (e.g.
the popped operand of `OP_PICK`, or the comparison result pushed by a
failing `OP_NUMEQUALVERIFY`) are preserved exactly as in the source. -/
def ExecuteOpcode (context : Option RxdExecutionContext) (s : VMState)
    (opcode : Nat) (pushData : valtype) : ScriptError × VMState :=
  let fExec : Bool := s.vfExec.isEmpty || s.vfExec.headD false
  if !fExec ∧ (opcode < OP_IF ∨ OP_ENDIF < opcode) then
    (.OK, s)
  else if opcode ≤ OP_PUSHDATA4 then
    if MAX_SCRIPT_ELEMENT_SIZE < pushData.length then (.PUSH_SIZE, s)
    else (.OK, { s with stack := pushData :: s.stack })
  else if OP_1 ≤ opcode ∧ opcode ≤ OP_16 then
    (.OK, { s with stack := [opcode - OP_1 + 1] :: s.stack })
  else if opcode = OP_1NEGATE then
    (.OK, { s with stack := [0x81] :: s.stack })
  else if opcode = OP_DUP then
    match s.stack with
    | [] => (.INVALID_STACK_OPERATION, s)
    | a :: _ => finishOp { s with stack := a :: s.stack }
  else if opcode = OP_DROP then
    match s.stack with
    | [] => (.INVALID_STACK_OPERATION, s)
    | _ :: r => finishOp { s with stack := r }
  else if opcode = OP_2DROP then
    match s.stack with
    | _ :: _ :: r => finishOp { s with stack := r }
    | _ => (.INVALID_STACK_OPERATION, s)
  else if opcode = OP_2DUP then
    match s.stack with
    | a :: b :: r => finishOp { s with stack := a :: b :: a :: b :: r }
    | _ => (.INVALID_STACK_OPERATION, s)
  else if opcode = OP_3DUP then
    match s.stack with
    | a :: b :: c :: r => finishOp { s with stack := a :: b :: c :: a :: b :: c :: r }
    | _ => (.INVALID_STACK_OPERATION, s)
  else if opcode = OP_NIP then
    match s.stack with
    | a :: _ :: r => finishOp { s with stack := a :: r }
    | _ => (.INVALID_STACK_OPERATION, s)
  else if opcode = OP_OVER then
    match s.stack with
    | a :: b :: r => finishOp { s with stack := b :: a :: b :: r }
    | _ => (.INVALID_STACK_OPERATION, s)
  else if opcode = OP_SWAP then
    match s.stack with
    | a :: b :: r => finishOp { s with stack := b :: a :: r }
    | _ => (.INVALID_STACK_OPERATION, s)
  else if opcode = OP_ROT then
    match s.stack with
    | a :: b :: c :: r => finishOp { s with stack := c :: a :: b :: r }
    | _ => (.INVALID_STACK_OPERATION, s)
  else if opcode = OP_TUCK then
    match s.stack with
    | a :: b :: r => finishOp { s with stack := a :: b :: a :: r }
    | _ => (.INVALID_STACK_OPERATION, s)
  else if opcode = OP_DEPTH then
    finishOp { s with stack := ScriptNumSerialize (s.stack.length : Int) :: s.stack }
  else if opcode = OP_TOALTSTACK then
    match s.stack with
    | [] => (.INVALID_STACK_OPERATION, s)
    | a :: r => finishOp { s with stack := r, altstack := a :: s.altstack }
  else if opcode = OP_FROMALTSTACK then
    match s.altstack with
    | [] => (.INVALID_ALTSTACK_OPERATION, s)
    | a :: r => finishOp { s with stack := a :: s.stack, altstack := r }
  else if opcode = OP_IFDUP then
    match s.stack with
    | [] => (.INVALID_STACK_OPERATION, s)
    | a :: _ =>
      if CastToBool a then finishOp { s with stack := a :: s.stack }
      else finishOp s
  else if opcode = OP_PICK ∨ opcode = OP_ROLL then
    match s.stack with
    | [] => (.INVALID_STACK_OPERATION, s)
    | a :: r =>
      let n := ScriptNumDeserialize a
      if n < 0 ∨ (r.length : Int) ≤ n then
        (.INVALID_STACK_OPERATION, { s with stack := r })
      else
        let v := r.getD n.toNat []
        if opcode = OP_ROLL then
          finishOp { s with stack := v :: r.eraseIdx n.toNat }
        else
          finishOp { s with stack := v :: r }
  else if opcode = OP_ADD then
    match s.stack with
    | x :: y :: r =>
      finishOp { s with stack :=
        ScriptNumSerialize (ScriptNumDeserialize y + ScriptNumDeserialize x) :: r }
    | _ => (.INVALID_STACK_OPERATION, s)
  else if opcode = OP_SUB then
    match s.stack with
    | x :: y :: r =>
      finishOp { s with stack :=
        ScriptNumSerialize (ScriptNumDeserialize y - ScriptNumDeserialize x) :: r }
    | _ => (.INVALID_STACK_OPERATION, s)
  else if opcode = OP_MUL then
    match s.stack with
    | x :: y :: r =>
      finishOp { s with stack :=
        ScriptNumSerialize (ScriptNumDeserialize y * ScriptNumDeserialize x) :: r }
    | _ => (.INVALID_STACK_OPERATION, s)
  else if opcode = OP_DIV then
    match s.stack with
    | x :: y :: r =>
      if ScriptNumDeserialize x = 0 then (.INVALID_STACK_OPERATION, s)
      else
        finishOp { s with stack :=
          ScriptNumSerialize (Int.tdiv (ScriptNumDeserialize y) (ScriptNumDeserialize x)) :: r }
    | _ => (.INVALID_STACK_OPERATION, s)
  else if opcode = OP_MOD then
    match s.stack with
    | x :: y :: r =>
      if ScriptNumDeserialize x = 0 then (.INVALID_STACK_OPERATION, s)
      else
        finishOp { s with stack :=
          ScriptNumSerialize (Int.tmod (ScriptNumDeserialize y) (ScriptNumDeserialize x)) :: r }
    | _ => (.INVALID_STACK_OPERATION, s)
  else if opcode = OP_1ADD then
    match s.stack with
    | [] => (.INVALID_STACK_OPERATION, s)
    | a :: r => finishOp { s with stack := ScriptNumSerialize (ScriptNumDeserialize a + 1) :: r }
  else if opcode = OP_1SUB then
    match s.stack with
    | [] => (.INVALID_STACK_OPERATION, s)
    | a :: r => finishOp { s with stack := ScriptNumSerialize (ScriptNumDeserialize a - 1) :: r }
  else if opcode = OP_NEGATE then
    match s.stack with
    | [] => (.INVALID_STACK_OPERATION, s)
    | a :: r => finishOp { s with stack := ScriptNumSerialize (-(ScriptNumDeserialize a)) :: r }
  else if opcode = OP_ABS then
    match s.stack with
    | [] => (.INVALID_STACK_OPERATION, s)
    | a :: r =>
      let n := ScriptNumDeserialize a
      finishOp { s with stack := ScriptNumSerialize (if n < 0 then -n else n) :: r }
  else if opcode = OP_NOT then
    match s.stack with
    | [] => (.INVALID_STACK_OPERATION, s)
    | a :: r =>
      finishOp { s with stack :=
        ScriptNumSerialize (if ScriptNumDeserialize a = 0 then 1 else 0) :: r }
  else if opcode = OP_0NOTEQUAL then
    match s.stack with
    | [] => (.INVALID_STACK_OPERATION, s)
    | a :: r =>
      finishOp { s with stack :=
        ScriptNumSerialize (if ScriptNumDeserialize a ≠ 0 then 1 else 0) :: r }
  else if opcode = OP_NUMEQUAL ∨ opcode = OP_NUMEQUALVERIFY then
    match s.stack with
    | x :: y :: r =>
      let result : Bool := ScriptNumDeserialize y = ScriptNumDeserialize x
      if opcode = OP_NUMEQUALVERIFY then
        if !result then
          (.NUMEQUALVERIFY, { s with stack := ScriptNumSerialize 0 :: r })
        else finishOp { s with stack := r }
      else finishOp { s with stack := ScriptNumSerialize (if result then 1 else 0) :: r }
    | _ => (.INVALID_STACK_OPERATION, s)
  else if opcode = OP_NUMNOTEQUAL then
    match s.stack with
    | x :: y :: r =>
      finishOp { s with stack :=
        ScriptNumSerialize (if ScriptNumDeserialize y ≠ ScriptNumDeserialize x then 1 else 0) :: r }
    | _ => (.INVALID_STACK_OPERATION, s)
  else if opcode = OP_LESSTHAN then
    match s.stack with
    | x :: y :: r =>
      finishOp { s with stack :=
        ScriptNumSerialize (if ScriptNumDeserialize y < ScriptNumDeserialize x then 1 else 0) :: r }
    | _ => (.INVALID_STACK_OPERATION, s)
  else if opcode = OP_GREATERTHAN then
    match s.stack with
    | x :: y :: r =>
      finishOp { s with stack :=
        ScriptNumSerialize (if ScriptNumDeserialize x < ScriptNumDeserialize y then 1 else 0) :: r }
    | _ => (.INVALID_STACK_OPERATION, s)
  else if opcode = OP_LESSTHANOREQUAL then
    match s.stack with
    | x :: y :: r =>
      finishOp { s with stack :=
        ScriptNumSerialize (if ScriptNumDeserialize y ≤ ScriptNumDeserialize x then 1 else 0) :: r }
    | _ => (.INVALID_STACK_OPERATION, s)
  else if opcode = OP_GREATERTHANOREQUAL then
    match s.stack with
    | x :: y :: r =>
      finishOp { s with stack :=
        ScriptNumSerialize (if ScriptNumDeserialize x ≤ ScriptNumDeserialize y then 1 else 0) :: r }
    | _ => (.INVALID_STACK_OPERATION, s)
  else if opcode = OP_MIN then
    match s.stack with
    | x :: y :: r =>
      finishOp { s with stack :=
        ScriptNumSerialize (min (ScriptNumDeserialize y) (ScriptNumDeserialize x)) :: r }
    | _ => (.INVALID_STACK_OPERATION, s)
  else if opcode = OP_MAX then
    match s.stack with
    | x :: y :: r =>
      finishOp { s with stack :=
        ScriptNumSerialize (max (ScriptNumDeserialize y) (ScriptNumDeserialize x)) :: r }
    | _ => (.INVALID_STACK_OPERATION, s)
  else if opcode = OP_WITHIN then
    match s.stack with
    | mx :: mn :: xv :: r =>
      let x := ScriptNumDeserialize xv
      let lo := ScriptNumDeserialize mn
      let hi := ScriptNumDeserialize mx
      finishOp { s with stack :=
        ScriptNumSerialize (if lo ≤ x ∧ x < hi then 1 else 0) :: r }
    | _ => (.INVALID_STACK_OPERATION, s)
  else if opcode = OP_BOOLAND then
    match s.stack with
    | x :: y :: r =>
      finishOp { s with stack :=
        ScriptNumSerialize (if CastToBool y ∧ CastToBool x then 1 else 0) :: r }
    | _ => (.INVALID_STACK_OPERATION, s)
  else if opcode = OP_BOOLOR then
    match s.stack with
    | x :: y :: r =>
      finishOp { s with stack :=
        ScriptNumSerialize (if CastToBool y ∨ CastToBool x then 1 else 0) :: r }
    | _ => (.INVALID_STACK_OPERATION, s)
  else if opcode = OP_EQUAL ∨ opcode = OP_EQUALVERIFY then
    match s.stack with
    | x :: y :: r =>
      let result : Bool := y = x
      if opcode = OP_EQUALVERIFY then
        if !result then
          (.EQUALVERIFY, { s with stack := ScriptNumSerialize 0 :: r })
        else finishOp { s with stack := r }
      else finishOp { s with stack := ScriptNumSerialize (if result then 1 else 0) :: r }
    | _ => (.INVALID_STACK_OPERATION, s)
  else if opcode = OP_SIZE then
    match s.stack with
    | [] => (.INVALID_STACK_OPERATION, s)
    | a :: _ =>
      finishOp { s with stack := ScriptNumSerialize (a.length : Int) :: s.stack }
  else if opcode = OP_CAT then
    match s.stack with
    | x :: y :: r =>
      if MAX_SCRIPT_ELEMENT_SIZE < y.length + x.length then (.PUSH_SIZE, s)
      else finishOp { s with stack := (y ++ x) :: r }
    | _ => (.INVALID_STACK_OPERATION, s)
  else if opcode = OP_SPLIT then
    match s.stack with
    | x :: d :: r =>
      let pos := ScriptNumDeserialize x
      if pos < 0 ∨ (d.length : Int) < pos then
        (.INVALID_STACK_OPERATION, { s with stack := d :: r })
      else
        finishOp { s with stack := d.drop pos.toNat :: d.take pos.toNat :: r }
    | _ => (.INVALID_STACK_OPERATION, s)
  else if opcode = OP_AND then
    match s.stack with
    | x :: y :: r =>
      if y.length ≠ x.length then (.INVALID_STACK_OPERATION, s)
      else finishOp { s with stack := (List.zipWith Nat.land y x) :: r }
    | _ => (.INVALID_STACK_OPERATION, s)
  else if opcode = OP_OR then
    match s.stack with
    | x :: y :: r =>
      if y.length ≠ x.length then (.INVALID_STACK_OPERATION, s)
      else finishOp { s with stack := (List.zipWith Nat.lor y x) :: r }
    | _ => (.INVALID_STACK_OPERATION, s)
  else if opcode = OP_XOR then
    match s.stack with
    | x :: y :: r =>
      if y.length ≠ x.length then (.INVALID_STACK_OPERATION, s)
      else finishOp { s with stack := (List.zipWith Nat.xor y x) :: r }
    | _ => (.INVALID_STACK_OPERATION, s)
  else if opcode = OP_IF ∨ opcode = OP_NOTIF then
    if fExec then
      match s.stack with
      | [] => (.INVALID_STACK_OPERATION, s)
      | a :: r =>
        let fValue := CastToBool a
        let fValue := if opcode = OP_NOTIF then !fValue else fValue
        finishOp { s with stack := r, vfExec := fValue :: s.vfExec }
    else
      finishOp { s with vfExec := false :: s.vfExec }
  else if opcode = OP_ELSE then
    match s.vfExec with
    | [] => (.UNBALANCED_CONDITIONAL, s)
    | f :: rest => finishOp { s with vfExec := (!f) :: rest }
  else if opcode = OP_ENDIF then
    match s.vfExec with
    | [] => (.UNBALANCED_CONDITIONAL, s)
    | _ :: rest => finishOp { s with vfExec := rest }
  else if opcode = OP_VERIFY then
    match s.stack with
    | [] => (.INVALID_STACK_OPERATION, s)
    | a :: r =>
      if !CastToBool a then (.VERIFY, s)
      else finishOp { s with stack := r }
  else if opcode = OP_RETURN then
    (.OP_RETURN, s)
  else if opcode = OP_NOP ∨ opcode = OP_NOP1 ∨ opcode = OP_NOP4 ∨ opcode = OP_NOP5 ∨
      opcode = OP_NOP6 ∨ opcode = OP_NOP7 ∨ opcode = OP_NOP8 ∨ opcode = OP_NOP9 ∨
      opcode = OP_NOP10 then
    finishOp s
  else if opcode = OP_INPUTINDEX then
    match context with
    | none => (.INTROSPECTION_CONTEXT_UNAVAILABLE, s)
    | some c =>
      finishOp { s with stack := ScriptNumSerialize (c.GetInputIndex : Int) :: s.stack }
  else if opcode = OP_TXVERSION then
    match context with
    | none => (.INTROSPECTION_CONTEXT_UNAVAILABLE, s)
    | some c =>
      finishOp { s with stack := ScriptNumSerialize c.GetTxVersion :: s.stack }
  else if opcode = OP_TXINPUTCOUNT then
    match context with
    | none => (.INTROSPECTION_CONTEXT_UNAVAILABLE, s)
    | some c =>
      finishOp { s with stack := ScriptNumSerialize (c.GetInputCount : Int) :: s.stack }
  else if opcode = OP_TXOUTPUTCOUNT then
    match context with
    | none => (.INTROSPECTION_CONTEXT_UNAVAILABLE, s)
    | some c =>
      finishOp { s with stack := ScriptNumSerialize (c.GetOutputCount : Int) :: s.stack }
  else if opcode = OP_TXLOCKTIME then
    match context with
    | none => (.INTROSPECTION_CONTEXT_UNAVAILABLE, s)
    | some c =>
      finishOp { s with stack := ScriptNumSerialize (c.GetLockTime : Int) :: s.stack }
  else if opcode = OP_UTXOVALUE then
    match context with
    | none => (.INTROSPECTION_CONTEXT_UNAVAILABLE, s)
    | some c =>
      match s.stack with
      | [] => (.INVALID_STACK_OPERATION, s)
      | a :: r =>
        let idx := ScriptNumDeserialize a
        if !(c.IsValidInputIndex (toUInt32 idx)) then
          (.INVALID_STACK_OPERATION, { s with stack := r })
        else
          finishOp { s with stack := ScriptNumSerialize (c.GetUtxoValue (toUInt32 idx)) :: r }
  else if opcode = OP_UTXOBYTECODE then
    match context with
    | none => (.INTROSPECTION_CONTEXT_UNAVAILABLE, s)
    | some c =>
      match s.stack with
      | [] => (.INVALID_STACK_OPERATION, s)
      | a :: r =>
        let idx := ScriptNumDeserialize a
        if !(c.IsValidInputIndex (toUInt32 idx)) then
          (.INVALID_STACK_OPERATION, { s with stack := r })
        else
          finishOp { s with stack := c.GetUtxoBytecode (toUInt32 idx) :: r }
  else if opcode = OP_OUTPUTVALUE then
    match context with
    | none => (.INTROSPECTION_CONTEXT_UNAVAILABLE, s)
    | some c =>
      match s.stack with
      | [] => (.INVALID_STACK_OPERATION, s)
      | a :: r =>
        let idx := ScriptNumDeserialize a
        if !(c.IsValidOutputIndex (toUInt32 idx)) then
          (.INVALID_STACK_OPERATION, { s with stack := r })
        else
          finishOp { s with stack := ScriptNumSerialize (c.GetOutputValue (toUInt32 idx)) :: r }
  else if opcode = OP_OUTPUTBYTECODE then
    match context with
    | none => (.INTROSPECTION_CONTEXT_UNAVAILABLE, s)
    | some c =>
      match s.stack with
      | [] => (.INVALID_STACK_OPERATION, s)
      | a :: r =>
        let idx := ScriptNumDeserialize a
        if !(c.IsValidOutputIndex (toUInt32 idx)) then
          (.INVALID_STACK_OPERATION, { s with stack := r })
        else
          finishOp { s with stack := c.GetOutputBytecode (toUInt32 idx) :: r }
  else if opcode = OP_INPUTSEQUENCENUMBER then
    match context with
    | none => (.INTROSPECTION_CONTEXT_UNAVAILABLE, s)
    | some c =>
      match s.stack with
      | [] => (.INVALID_STACK_OPERATION, s)
      | a :: r =>
        let idx := ScriptNumDeserialize a
        if !(c.IsValidInputIndex (toUInt32 idx)) then
          (.INVALID_STACK_OPERATION, { s with stack := r })
        else
          finishOp { s with stack :=
            ScriptNumSerialize (c.GetInputSequence (toUInt32 idx) : Int) :: r }
  else if opcode = OP_STATESEPARATOR then
    finishOp s
  else if opcode = OP_PUSHINPUTREF then
    match s.stack with
    | [] => (.INVALID_STACK_OPERATION, s)
    | a :: _ =>
      if a.length ≠ 36 then (.INVALID_REFERENCE, s)
      else finishOp { s with pushRefs := insertSet a s.pushRefs }
  else if opcode = OP_REQUIREINPUTREF then
    match s.stack with
    | [] => (.INVALID_STACK_OPERATION, s)
    | a :: r =>
      if a.length ≠ 36 then (.INVALID_REFERENCE, { s with stack := r })
      else finishOp { s with stack := r, requireRefs := insertSet a s.requireRefs }
  else if opcode = OP_SHA256 ∨ opcode = OP_HASH160 ∨ opcode = OP_HASH256 then
    match s.stack with
    | [] => (.INVALID_STACK_OPERATION, s)
    | _ :: _ => finishOp s
  else if opcode = OP_CHECKSIG ∨ opcode = OP_CHECKSIGVERIFY then
    match s.stack with
    | _ :: _ :: r =>
      if opcode = OP_CHECKSIGVERIFY then finishOp { s with stack := r }
      else finishOp { s with stack := ScriptNumSerialize 1 :: r }
    | _ => (.INVALID_STACK_OPERATION, s)
  else
    (.BAD_OPCODE, s)

/-- `RxdVMAdapter::Impl` (rxd_vm_adapter.cpp:84-99): the adapter's fields.
`history` is newest-first (`push_back`/`back`/`pop_back` become
cons/head/tail). -/
structure Machine where
  scriptSig : List Nat
  scriptPubKey : List Nat
  tx : CRxdTx
  inputIndex : Nat
  flags : Nat
  context : Option RxdExecutionContext
  currentState : VMState
  history : List VMState
  inScriptPubKey : Bool
  deriving DecidableEq

namespace Machine

/-- `Reset()` (rxd_vm_adapter.cpp:114-133): fresh state, cleared history;
an empty `scriptSig` starts directly in the `scriptPubKey` phase. -/
def reset (m : Machine) : Machine :=
  if m.scriptSig = [] ∧ m.scriptPubKey ≠ [] then
    { m with currentState := { VMState.initial with script := m.scriptPubKey },
             history := [], inScriptPubKey := true }
  else
    { m with currentState := { VMState.initial with script := m.scriptSig },
             history := [], inScriptPubKey := false }

/-- The `Impl` constructor (rxd_vm_adapter.cpp:101-112): store the
arguments and `Reset()`. -/
def init (scriptSig scriptPubKey : List Nat) (tx : CRxdTx) (inputIndex : Nat)
    (flags : Nat) (context : Option RxdExecutionContext) : Machine :=
  reset { scriptSig := scriptSig, scriptPubKey := scriptPubKey, tx := tx,
          inputIndex := inputIndex, flags := flags, context := context,
          currentState := VMState.initial, history := [], inScriptPubKey := false }

/-- `Step()` (rxd_vm_adapter.cpp:135-203).  Returns the C++ return value
next to the updated machine. -/
def step (m : Machine) : Bool × Machine :=
  if m.currentState.done then (false, m)
  else
    -- Save current state to history
    let h' := m.currentState :: m.history
    let cs := m.currentState
    if cs.script.length ≤ cs.pc then
      -- Script exhausted
      if !m.inScriptPubKey ∧ 0 < m.scriptPubKey.length then
        -- Move to scriptPubKey
        (true, { m with
                 history := h',
                 currentState := { cs with script := m.scriptPubKey, pc := 0 },
                 inScriptPubKey := true })
      else if cs.vfExec ≠ [] then
        (false, { m with
                  history := h',
                  currentState := { cs with
                                    done := true,
                                    error := .UNBALANCED_CONDITIONAL,
                                    success := false } })
      else if cs.stack ≠ [] ∧ CastToBool (cs.stack.headD []) then
        (false, { m with
                  history := h',
                  currentState := { cs with done := true, success := true } })
      else
        (false, { m with
                  history := h',
                  currentState := { cs with
                                    done := true,
                                    success := false,
                                    error := .EVAL_FALSE } })
    else
      match GetOp cs.script cs.pc with
      | none =>
        (false, { m with
                  history := h',
                  currentState := { cs with done := true, error := .BAD_OPCODE } })
      | some (opcode, pushData, newPc) =>
        let (execError, cs') := ExecuteOpcode m.context cs opcode pushData
        if execError ≠ .OK then
          (false, { m with
                    history := h',
                    currentState := { cs' with
                                      done := true,
                                      error := execError,
                                      success := false } })
        else
          (true, { m with
                   history := h',
                   currentState := { cs' with
                                     pc := newPc,
                                     opIndex := cs'.opIndex + 1 } })

/-- `Rewind()` (rxd_vm_adapter.cpp:205-212): pop the newest snapshot back
into the live state. -/
def rewind (m : Machine) : Bool × Machine :=
  match m.history with
  | [] => (false, m)
  | c :: h => (true, { m with currentState := c, history := h })

/-- `k` consecutive `Step()` calls (machine component). -/
def stepN : Nat → Machine → Machine
  | 0, m => m
  | k + 1, m => (stepN k m).step.2

/-- `k` consecutive `Rewind()` calls (machine component). -/
def rewindN : Nat → Machine → Machine
  | 0, m => m
  | k + 1, m => rewindN k m.rewind.2

/-- `Run()`'s `while (Step()) {}` loop (rxd_vm_adapter.cpp:978-981),
fuelled.  Each `true`-returning step either advances `pc` by at least one
byte within its phase or performs the single phase switch, so
`scriptSig.length + scriptPubKey.length + 2` fuel runs the loop to its
`false` return. -/
def runFuel : Nat → Machine → Bool × Machine
  | 0, m => (m.currentState.success, m)
  | fuel + 1, m =>
    let (cont, m') := m.step
    if cont then runFuel fuel m' else (m'.currentState.success, m')

/-- `Run()` (rxd_vm_adapter.cpp:978-981): run to completion, return
`currentState.success`. -/
def run (m : Machine) : Bool × Machine :=
  runFuel (m.scriptSig.length + m.scriptPubKey.length + 2) m

end Machine

/-- `VerifyRxdScript` (rxd_vm_adapter.cpp:1064-1077): build an adapter,
`Run()`, report the result and `GetError()`. -/
def VerifyRxdScript (scriptSig scriptPubKey : List Nat) (flags : Nat)
    (tx : CRxdTx) (inputIndex : Nat) (context : Option RxdExecutionContext) :
    Bool × ScriptError :=
  let vm := Machine.init scriptSig scriptPubKey tx inputIndex flags context
  let (result, vm') := vm.run
  (result, vm'.currentState.error)

/-! Signature checking (rxd_signature.cpp).  SHA-256 (`crypto::Hash256`)
and secp256k1 ECDSA verification (`VerifySignature`) are out-of-scope
primitives (spec §1) and are passed in as function parameters. -/

/-- `WriteLE32` (rxd_signature.cpp:26-31). -/
def writeLE32 (v : Nat) : List Nat :=
  [v % 256, v / 256 % 256, v / 65536 % 256, v / 16777216 % 256]

/-- `WriteLE64` (rxd_signature.cpp:34-40) on the `uint64_t` bit pattern,
loop unrolled. -/
def writeLE64Nat (u : Nat) : List Nat :=
  [u % 256, u / 256 % 256, u / 256 ^ 2 % 256, u / 256 ^ 3 % 256,
   u / 256 ^ 4 % 256, u / 256 ^ 5 % 256, u / 256 ^ 6 % 256, u / 256 ^ 7 % 256]

/-- The `int64_t` → `uint64_t` bit-pattern cast. -/
def toUInt64 (v : Int) : Nat := (v % (2 ^ 64)).toNat

/-- `WriteVarInt` (rxd_signature.cpp:43-57; the identical local lambda in
`CRxdTx::Serialize`, rxd_tx.cpp:152-171). -/
def WriteVarInt (n : Nat) : List Nat :=
  if n < 0xfd then [n]
  else if n ≤ 0xffff then 0xfd :: [n % 256, n / 256 % 256]
  else if n ≤ 0xffffffff then 0xfe :: writeLE32 n
  else 0xff :: writeLE64Nat n

/-- `GetPrevoutsHash` (rxd_signature.cpp:60-70). -/
def GetPrevoutsHash (hash256 : List Nat → List Nat) (tx : CRxdTx) : List Nat :=
  hash256 (tx.vin.flatMap fun i => i.prevout.txid ++ writeLE32 i.prevout.n)

/-- `GetSequenceHash` (rxd_signature.cpp:73-79). -/
def GetSequenceHash (hash256 : List Nat → List Nat) (tx : CRxdTx) : List Nat :=
  hash256 (tx.vin.flatMap fun i => writeLE32 i.nSequence)

/-- `GetOutputsHash` (rxd_signature.cpp:82-91). -/
def GetOutputsHash (hash256 : List Nat → List Nat) (tx : CRxdTx) : List Nat :=
  hash256 (tx.vout.flatMap fun o =>
    writeLE64Nat (toUInt64 o.nValue) ++ WriteVarInt o.scriptPubKey.length ++ o.scriptPubKey)

/-- `GetBaseSigHashType` (rxd_signature.h:35-37). -/
def GetBaseSigHashType (nHashType : Nat) : Nat := nHashType &&& 0x1f

/-- `HasForkId` (rxd_signature.h:42-44): the `SIGHASH_FORKID = 0x40` bit. -/
def HasForkId (nHashType : Nat) : Bool := nHashType &&& 0x40 ≠ 0

/-- `HasAnyoneCanPay` (rxd_signature.h:49-51). -/
def HasAnyoneCanPay (nHashType : Nat) : Bool := nHashType &&& 0x80 ≠ 0

/-- `GetSigHashType` (rxd_signature.cpp:236-239): the signature's final
byte, `0` for the empty signature. -/
def GetSigHashType (sig : valtype) : Nat :=
  if sig = [] then 0 else sig.getLastD 0

/-- `SignatureHash` (rxd_signature.cpp:95-181): the BIP143-style preimage,
double-SHA-256'd by the `hash256` parameter.  `forkValue` is `0`, so step
10 writes `nHashType` itself. -/
def SignatureHash (hash256 : List Nat → List Nat) (tx : CRxdTx) (nIn : Nat)
    (scriptCode : List Nat) (amount : Int) (nHashType : Nat) : List Nat :=
  if tx.vin.length ≤ nIn then List.replicate 32 0
  else
    let nBaseSigHash := GetBaseSigHashType nHashType
    let fAnyoneCanPay := HasAnyoneCanPay nHashType
    let fSingle := nBaseSigHash = 3
    let fNone := nBaseSigHash = 2
    let input := tx.vin.getD nIn ⟨⟨List.replicate 32 0, 0xffffffff⟩, [], 0xffffffff⟩
    let preimage :=
      writeLE32 ((tx.nVersion % (2 ^ 32)).toNat)
      ++ (if !fAnyoneCanPay then GetPrevoutsHash hash256 tx else List.replicate 32 0)
      ++ (if !fAnyoneCanPay ∧ ¬fSingle ∧ ¬fNone then GetSequenceHash hash256 tx
          else List.replicate 32 0)
      ++ input.prevout.txid ++ writeLE32 input.prevout.n
      ++ WriteVarInt scriptCode.length ++ scriptCode
      ++ writeLE64Nat (toUInt64 amount)
      ++ writeLE32 input.nSequence
      ++ (if ¬fSingle ∧ ¬fNone then GetOutputsHash hash256 tx
          else if fSingle ∧ nIn < tx.vout.length then
            hash256 (writeLE64Nat (toUInt64 (tx.vout.getD nIn ⟨-1, []⟩).nValue)
              ++ WriteVarInt (tx.vout.getD nIn ⟨-1, []⟩).scriptPubKey.length
              ++ (tx.vout.getD nIn ⟨-1, []⟩).scriptPubKey)
          else List.replicate 32 0)
      ++ writeLE32 tx.nLockTime
      ++ writeLE32 nHashType
    hash256 preimage

/-- `SignatureChecker` (rxd_signature.cpp:306-309). -/
structure SignatureChecker where
  tx : CRxdTx
  nIn : Nat
  amount : Int

/-- `SignatureChecker::CheckSig` (rxd_signature.cpp:311-333).  `hash256`
and `verifySignature` are the out-of-scope SHA-256d and secp256k1/DER
verification primitives. -/
def SignatureChecker.CheckSig (hash256 : List Nat → List Nat)
    (verifySignature : valtype → valtype → List Nat → Bool)
    (c : SignatureChecker) (sig pubkey : valtype) (scriptCode : List Nat) : Bool :=
  if sig = [] then false
  else
    let nHashType := GetSigHashType sig
    if !HasForkId nHashType then false
    else
      verifySignature pubkey sig
        (SignatureHash hash256 c.tx c.nIn scriptCode c.amount nHashType)

/-! Transaction wire codec (rxd_tx.cpp).  The position-based readers of
`CRxdTx::Deserialize` are embedded consume-style: each reader takes the
remaining bytes and returns the parsed value next to the rest; the thrown
`std::runtime_error("Unexpected end of data")` becomes `none`. -/

/-- The `uint32_t` → `int32_t` bit-pattern cast used for `nVersion`. -/
def toInt32 (v : Nat) : Int :=
  if v < 2 ^ 31 then (v : Int) else (v : Int) - 2 ^ 32

/-- The `uint64_t` → `int64_t` bit-pattern cast used for output values. -/
def toInt64 (v : Nat) : Int :=
  if v < 2 ^ 63 then (v : Int) else (v : Int) - 2 ^ 64

/-- `CRxdTx::Serialize` (rxd_tx.cpp:142-220). -/
def CRxdTx.Serialize (tx : CRxdTx) : List Nat :=
  writeLE32 ((tx.nVersion % (2 ^ 32)).toNat)
  ++ WriteVarInt tx.vin.length
  ++ (tx.vin.flatMap fun i =>
      i.prevout.txid ++ writeLE32 i.prevout.n
      ++ WriteVarInt i.scriptSig.length ++ i.scriptSig
      ++ writeLE32 i.nSequence)
  ++ WriteVarInt tx.vout.length
  ++ (tx.vout.flatMap fun o =>
      writeLE64Nat (toUInt64 o.nValue)
      ++ WriteVarInt o.scriptPubKey.length ++ o.scriptPubKey)
  ++ writeLE32 tx.nLockTime

/-- `ReadLE32` (rxd_tx.cpp:239-244). -/
def readLE32 : List Nat → Option (Nat × List Nat)
  | b0 :: b1 :: b2 :: b3 :: rest =>
    some (b0 + 256 * b1 + 65536 * b2 + 16777216 * b3, rest)
  | _ => none

/-- `ReadLE64` (rxd_tx.cpp:246-254). -/
def readLE64 : List Nat → Option (Nat × List Nat)
  | b0 :: b1 :: b2 :: b3 :: b4 :: b5 :: b6 :: b7 :: rest =>
    some (b0 + 256 * b1 + 256 ^ 2 * b2 + 256 ^ 3 * b3 + 256 ^ 4 * b4
      + 256 ^ 5 * b5 + 256 ^ 6 * b6 + 256 ^ 7 * b7, rest)
  | _ => none

/-- `ReadVarInt` (rxd_tx.cpp:256-270). -/
def readVarInt : List Nat → Option (Nat × List Nat)
  | [] => none
  | first :: rest =>
    if first < 0xfd then some (first, rest)
    else if first = 0xfd then
      match rest with
      | b0 :: b1 :: r => some (b0 + 256 * b1, r)
      | _ => none
    else if first = 0xfe then readLE32 rest
    else readLE64 rest

/-- `ReadBytes` (rxd_tx.cpp:272-277). -/
def readBytes (n : Nat) (d : List Nat) : Option (List Nat × List Nat) :=
  if d.length < n then none else some (d.take n, d.drop n)

/-- The input-reading loop of `CRxdTx::Deserialize` (rxd_tx.cpp:283-293). -/
def readInputs : Nat → List Nat → Option (List CRxdTxIn × List Nat)
  | 0, d => some ([], d)
  | k + 1, d => do
    let (txid, d) ← readBytes 32 d
    let (pn, d) ← readLE32 d
    let (slen, d) ← readVarInt d
    let (sdata, d) ← readBytes slen d
    let (seq, d) ← readLE32 d
    let (restIns, d) ← readInputs k d
    some (⟨⟨txid, pn⟩, sdata, seq⟩ :: restIns, d)

/-- The output-reading loop of `CRxdTx::Deserialize` (rxd_tx.cpp:296-304). -/
def readOutputs : Nat → List Nat → Option (List CRxdTxOut × List Nat)
  | 0, d => some ([], d)
  | k + 1, d => do
    let (v, d) ← readLE64 d
    let (slen, d) ← readVarInt d
    let (sdata, d) ← readBytes slen d
    let (restOuts, d) ← readOutputs k d
    some (⟨toInt64 v, sdata⟩ :: restOuts, d)

/-- `CRxdTx::Deserialize` (rxd_tx.cpp:235-310). -/
def CRxdTx.Deserialize (d : List Nat) : Option CRxdTx := do
  let (ver, d) ← readLE32 d
  let (inputCount, d) ← readVarInt d
  let (ins, d) ← readInputs inputCount d
  let (outputCount, d) ← readVarInt d
  let (outs, d) ← readOutputs outputCount d
  let (lock, _) ← readLE32 d
  some ⟨toInt32 ver, ins, outs, lock⟩

/-- The well-formedness the spec assumes of a transaction put on the wire:
32-byte txids, counts and scalar fields within their machine-integer
ranges. -/
def WellFormedTx (tx : CRxdTx) : Prop :=
  -2 ^ 31 ≤ tx.nVersion ∧ tx.nVersion < 2 ^ 31 ∧
  tx.nLockTime < 2 ^ 32 ∧
  tx.vin.length < 2 ^ 64 ∧ tx.vout.length < 2 ^ 64 ∧
  (∀ i ∈ tx.vin, i.prevout.txid.length = 32 ∧ i.prevout.n < 2 ^ 32 ∧
    i.nSequence < 2 ^ 32 ∧ i.scriptSig.length < 2 ^ 64) ∧
  (∀ o ∈ tx.vout, -2 ^ 63 ≤ o.nValue ∧ o.nValue < 2 ^ 63 ∧
    o.scriptPubKey.length < 2 ^ 64)

/-- A machine whose execution has finished, for exercising `Step()` on a
`done` state. -/
def doneMachineExample : Machine :=
  { Machine.init [] [0x51] dummyTx 0 0 none with
    currentState := { VMState.initial with script := [0x51], done := true } }

/-- A state with `[5]` below an empty byte string (which decodes to the
script number `0`) on the stack. -/
def divZeroState : VMState :=
  { VMState.initial with stack := [[], [0x05]] }

/-- The per-kind 36-byte-reference invariant of a script summary: every
reference accepted into any of the four reference sets is exactly 36
bytes long. -/
def refs36 (sum : PushRefScriptSummary) : Prop :=
  (∀ r ∈ sum.pushRefSet, r.length = 36) ∧
  (∀ r ∈ sum.requireRefSet, r.length = 36) ∧
  (∀ r ∈ sum.disallowSiblingRefSet, r.length = 36) ∧
  (∀ r ∈ sum.singletonRefSet, r.length = 36)

/-! ## Theorems -/

theorem serLoopAux_congr : ∀ f₁ f₂ a, a ≤ f₁ → a ≤ f₂ →
    serLoopAux f₁ a = serLoopAux f₂ a := by
  intro f₁
  induction f₁ using Nat.strong_induction_on with
  | _ f₁ ih =>
    intro f₂ a h₁ h₂
    match f₁, f₂ with
    | 0, f₂ =>
      interval_cases a
      cases f₂ <;> simp [serLoopAux]
    | f₁ + 1, 0 =>
      interval_cases a
      simp [serLoopAux]
    | f₁ + 1, f₂ + 1 =>
      by_cases ha : a = 0
      · simp [serLoopAux, ha]
      · have hlt : a / 256 < a := Nat.div_lt_self (Nat.pos_of_ne_zero ha) (by norm_num)
        have hle₁ : a / 256 ≤ f₁ := by omega
        have hle₂ : a / 256 ≤ f₂ := by omega
        simp only [serLoopAux, if_neg ha]
        exact congrArg _ (ih f₁ (Nat.lt_succ_self f₁) f₂ (a / 256) hle₁ hle₂)

/-- Defining equation of the serializer's digit loop. -/
theorem serLoop_eq (a : Nat) :
    serLoop a = if a = 0 then [] else a % 256 :: serLoop (a / 256) := by
  by_cases ha : a = 0
  · simp [serLoop, serLoopAux, ha]
  · have hlt : a / 256 < a := Nat.div_lt_self (Nat.pos_of_ne_zero ha) (by norm_num)
    have h1 : 1 ≤ a := Nat.pos_of_ne_zero ha
    simp only [serLoop, if_neg ha]
    match a, h1 with
    | a + 1, _ =>
      simp only [serLoopAux, if_neg ha]
      exact congrArg _ (serLoopAux_congr a ((a + 1) / 256) ((a + 1) / 256) (by omega) le_rfl)


theorem leNat_serLoop (a : Nat) : leNat (serLoop a) = a := by
  induction a using Nat.strong_induction_on with
  | _ a ih =>
    rw [serLoop_eq]
    by_cases ha : a = 0
    · simp [ha, leNat]
    · have hlt : a / 256 < a := Nat.div_lt_self (Nat.pos_of_ne_zero ha) (by norm_num)
      simp only [if_neg ha, leNat, ih (a / 256) hlt]
      omega

theorem serLoop_ne_nil {a : Nat} (ha : a ≠ 0) : serLoop a ≠ [] := by
  rw [serLoop_eq, if_neg ha]
  simp

theorem serLoop_lt (a : Nat) : ∀ b ∈ serLoop a, b < 256 := by
  induction a using Nat.strong_induction_on with
  | _ a ih =>
    rw [serLoop_eq]
    by_cases ha : a = 0
    · simp [ha]
    · have hlt : a / 256 < a := Nat.div_lt_self (Nat.pos_of_ne_zero ha) (by norm_num)
      simp only [if_neg ha, List.mem_cons]
      rintro b (rfl | hb)
      · exact Nat.mod_lt _ (by norm_num)
      · exact ih (a / 256) hlt b hb

theorem leNat_append_single (xs : List Nat) (c : Nat) :
    leNat (xs ++ [c]) = leNat xs + c * 256 ^ xs.length := by
  induction xs with
  | nil => simp [leNat]
  | cons b rest ih =>
    simp only [List.cons_append, leNat, List.append_eq, ih, List.length_cons]
    ring

theorem getLastD_append_single (xs : List Nat) (c d : Nat) :
    (xs ++ [c]).getLastD d = c := by
  rw [List.getLastD_eq_getLast?, List.getLast?_concat]
  rfl

theorem append_single_ne_nil (xs : List Nat) (c : Nat) : xs ++ [c] ≠ [] := by
  intro h
  have := congrArg List.length h
  simp at this

theorem getLast_eq_getLastD_zero (xs : List Nat) (hx : xs ≠ []) :
    xs.getLast hx = xs.getLastD 0 := by
  rw [List.getLastD_eq_getLast?, List.getLast?_eq_getLast _ hx]
  rfl

/-- Splitting a nonempty byte string into its leading bytes and its last
byte, as values. -/
theorem leNat_dropLast (xs : List Nat) (hx : xs ≠ []) :
    leNat xs = leNat xs.dropLast + xs.getLastD 0 * 256 ^ (xs.length - 1) := by
  conv_lhs => rw [← List.dropLast_append_getLast hx]
  rw [getLast_eq_getLastD_zero xs hx, leNat_append_single, List.length_dropLast]

theorem getLastD_serLoop_lt (a : Nat) : (serLoop a).getLastD 0 < 256 := by
  by_cases ha : a = 0
  · rw [serLoop_eq, if_pos ha]; norm_num
  · have h := serLoop_lt a ((serLoop a).getLastD 0)
    have hne := serLoop_ne_nil ha
    rw [List.getLastD_eq_getLast?, List.getLast?_eq_getLast _ hne]
    exact serLoop_lt a _ (List.getLast_mem hne)

/-- C1 — Script-number codec round trip: for every integer `n` with
`-(2^63-1) ≤ n ≤ 2^63-1`, deserializing the serialization of `n` yields
`n` again (`ScriptNumDeserialize(ScriptNumSerialize(n)) == n`). -/
theorem scriptnum_roundtrip (n : Int)
    (h₁ : -(2 ^ 63 - 1) ≤ n) (h₂ : n ≤ 2 ^ 63 - 1) :
    ScriptNumDeserialize (ScriptNumSerialize n) = n := by
  by_cases hn : n = 0
  · simp [hn, ScriptNumSerialize, ScriptNumDeserialize]
  · have hm : n.natAbs ≠ 0 := by
      simpa using hn
    set m := n.natAbs with hmdef
    set ds := serLoop m with hds
    have hdsne : ds ≠ [] := serLoop_ne_nil hm
    have hval : leNat ds = m := leNat_serLoop m
    have hlast : ds.getLastD 0 < 256 := getLastD_serLoop_lt m
    rw [ScriptNumSerialize, if_neg hn]
    by_cases hhi : 128 ≤ ds.getLastD 0
    · -- most significant digit has its top bit set: a sign byte is appended
      rw [if_pos hhi]
      by_cases hneg : n < 0
      · -- append 0x80, deserialize masks it away and negates
        rw [if_pos hneg, ScriptNumDeserialize, if_neg (append_single_ne_nil ds 128), leNat_append_single]
        simp only [getLastD_append_single, List.length_append, List.length_cons,
          List.length_nil]
        rw [if_pos (by norm_num)]
        have hlen : ds.length + 1 - 1 = ds.length := by omega
        rw [hlen, hval]
        have hmn : (m : Int) = -n := by omega
        push_cast
        linarith [hmn]
      · -- append 0x00, deserialize reads the value back unchanged
        rw [if_neg hneg, ScriptNumDeserialize, if_neg (append_single_ne_nil ds 0), leNat_append_single]
        simp only [getLastD_append_single]
        rw [if_neg (by norm_num), hval]
        simp only [Nat.mul_zero, Nat.zero_mul, Nat.add_zero]
        omega
    · -- most significant digit below 0x80
      rw [if_neg hhi]
      by_cases hneg : n < 0
      · -- the sign bit is ORed into the last digit
        rw [if_pos hneg]
        have hsplit := leNat_dropLast ds hdsne
        rw [ScriptNumDeserialize,
          if_neg (append_single_ne_nil ds.dropLast (ds.getLastD 0 + 128)),
          leNat_append_single]
        simp only [getLastD_append_single, List.length_append, List.length_cons,
          List.length_nil, List.length_dropLast]
        rw [if_pos (by omega)]
        have hlen₁ : 1 ≤ ds.length := List.length_pos.mpr hdsne
        have hlen : ds.length - 1 + 1 - 1 = ds.length - 1 := by omega
        rw [hlen]
        have hmn : (m : Int) = -n := by omega
        have hm2 : (leNat ds.dropLast : Int)
            + (ds.getLastD 0 : Int) * (256 : Int) ^ (ds.length - 1) = (m : Int) := by
          rw [hval] at hsplit
          exact_mod_cast congrArg (Nat.cast : Nat → Int) hsplit.symm
        push_cast
        linarith [hm2, hmn]
      · -- positive with last digit below 0x80: raw digits
        rw [if_neg hneg, ScriptNumDeserialize, if_neg hdsne, if_neg hhi, hval]
        omega

/-- Witness for `scriptnum_roundtrip` at `n = -5`. -/
theorem scriptnum_roundtrip_witness :
    (-(2 ^ 63 - 1) ≤ (-5 : Int) ∧ (-5 : Int) ≤ 2 ^ 63 - 1) ∧
      ScriptNumDeserialize (ScriptNumSerialize (-5)) = -5 :=
  ⟨⟨by norm_num, by norm_num⟩, scriptnum_roundtrip (-5) (by norm_num) (by norm_num)⟩

/-- C5 — the script-number decoder at a 9-byte input.  The source
(`ScriptNumDeserialize`, rxd_vm_adapter.cpp:920-936) performs no length
check and its return type (`int64_t`) has no error channel — `ScriptError`
contains no `InvalidNumberRange` variant — so an input longer than 8 bytes
is decoded to a numeric value instead of failing: the 9-byte string
`01 00 00 00 00 00 00 00 00` decodes to `1`. -/
theorem scriptnum_deserialize_nine_bytes :
    ScriptNumDeserialize [1, 0, 0, 0, 0, 0, 0, 0, 0] = 1 := by
  decide

/-- C10 — `Step()` on a finished interpreter (`done = true`) returns
`false` and changes nothing: `Step` returns at once
(rxd_vm_adapter.cpp:136-138), so the stack, altstack, program counter,
opcode counters, error code and history are all exactly as before. -/
theorem step_done_noop (m : Machine) (h : m.currentState.done = true) :
    m.step = (false, m) := by
  simp [Machine.step, h]

/-- Witness for `step_done_noop` on a concrete finished machine. -/
theorem step_done_noop_witness :
    doneMachineExample.currentState.done = true ∧
      doneMachineExample.step = (false, doneMachineExample) :=
  ⟨by decide, step_done_noop doneMachineExample (by decide)⟩

/-- C2, counterexample — dividing by a zero decoded from the stack top
fails with `INVALID_STACK_OPERATION`, not with a `DivByZero`/`ModByZero`
kind: `ExecuteOpcode`'s `OP_DIV`/`OP_MOD` cases return
`ScriptError::INVALID_STACK_OPERATION` on `b == 0`
(rxd_vm_adapter.cpp:396,408), and the `ScriptError` enumeration contains
no `DivByZero`/`ModByZero` variants at all, so the claimed error kinds
cannot be produced.  Shown on the stack `[0, 5]` and on the spec's own
scenario `unlocking = []`, `locking = [OP_5, OP_0, OP_DIV]`. -/
theorem div_mod_by_zero_counterexample :
    ExecuteOpcode none divZeroState OP_DIV [] = (.INVALID_STACK_OPERATION, divZeroState) ∧
    ExecuteOpcode none divZeroState OP_MOD [] = (.INVALID_STACK_OPERATION, divZeroState) ∧
    VerifyRxdScript [] [0x55, 0x00, 0x96] 0 dummyTx 0 (some CreateMinimalContext)
      = (false, .INVALID_STACK_OPERATION) := by
  refine ⟨by decide, by decide, by decide⟩

/-- C2, amended — for every executing state whose stack has at least two
elements and whose top element decodes to the script number `0`, `OP_DIV`
and `OP_MOD` fail with the `InvalidStackOperation` error kind (the
implementation routes division and modulo by zero through the same check
as stack underflow; the live state is left unchanged). -/
theorem div_mod_by_zero_invalid_stack_operation
    (ctx : Option RxdExecutionContext) (s : VMState) (data : valtype)
    (x y : valtype) (r : List valtype)
    (hstack : s.stack = x :: y :: r)
    (hzero : ScriptNumDeserialize x = 0)
    (hexec : (s.vfExec.isEmpty || s.vfExec.headD false) = true) :
    ExecuteOpcode ctx s OP_DIV data = (.INVALID_STACK_OPERATION, s) ∧
    ExecuteOpcode ctx s OP_MOD data = (.INVALID_STACK_OPERATION, s) := by
  constructor <;>
  · simp only [ExecuteOpcode, hexec, hstack, hzero]
    norm_num [OP_IF, OP_ENDIF, OP_PUSHDATA4, OP_1, OP_16, OP_1NEGATE, OP_DUP,
      OP_DROP, OP_2DROP, OP_2DUP, OP_3DUP, OP_NIP, OP_OVER, OP_SWAP, OP_ROT,
      OP_TUCK, OP_DEPTH, OP_TOALTSTACK, OP_FROMALTSTACK, OP_IFDUP, OP_PICK,
      OP_ROLL, OP_ADD, OP_SUB, OP_MUL, OP_DIV, OP_MOD]

/-- Witness for `div_mod_by_zero_invalid_stack_operation` at the stack
`[[0x80], [2], [3]]` (`0x80` is negative zero, which decodes to `0`). -/
theorem div_mod_by_zero_witness :
    ({ VMState.initial with stack := [[0x80], [2], [3]] } : VMState).stack
        = [0x80] :: [2] :: [[3]] ∧
      ScriptNumDeserialize [0x80] = 0 ∧
      ExecuteOpcode none { VMState.initial with stack := [[0x80], [2], [3]] } OP_DIV []
        = (.INVALID_STACK_OPERATION, { VMState.initial with stack := [[0x80], [2], [3]] }) ∧
      ExecuteOpcode none { VMState.initial with stack := [[0x80], [2], [3]] } OP_MOD []
        = (.INVALID_STACK_OPERATION, { VMState.initial with stack := [[0x80], [2], [3]] }) := by
  refine ⟨by decide, by decide, ?_, ?_⟩
  · exact (div_mod_by_zero_invalid_stack_operation none
      { VMState.initial with stack := [[0x80], [2], [3]] } [] [0x80] [2] [[3]]
      (by decide) (by decide) (by decide)).1
  · exact (div_mod_by_zero_invalid_stack_operation none
      { VMState.initial with stack := [[0x80], [2], [3]] } [] [0x80] [2] [[3]]
      (by decide) (by decide) (by decide)).2

/-- C4 — `SignatureChecker::CheckSig` rejects every signature whose
sighash byte lacks the FORKID bit, for every transaction, input index,
amount, public key, script code, and for every behavior of the opaque
SHA-256d and secp256k1 primitives: the FORKID gate
(rxd_signature.cpp:324-326) returns `false` before they are consulted
(the empty signature is likewise rejected, at rxd_signature.cpp:316–318). -/
theorem checksig_rejects_non_forkid (hash256 : List Nat → List Nat)
    (verifySignature : valtype → valtype → List Nat → Bool)
    (c : SignatureChecker) (sig pubkey : valtype) (scriptCode : List Nat)
    (h : HasForkId (GetSigHashType sig) = false) :
    SignatureChecker.CheckSig hash256 verifySignature c sig pubkey scriptCode = false := by
  unfold SignatureChecker.CheckSig
  by_cases hs : sig = []
  · simp [hs]
  · simp [hs, h]

/-- Witness for `checksig_rejects_non_forkid` on a DER-shaped signature
whose sighash byte is `0x01` (`SIGHASH_ALL` without FORKID). -/
theorem checksig_rejects_non_forkid_witness :
    HasForkId (GetSigHashType [0x30, 0x06, 0x02, 0x01, 0x01, 0x02, 0x01, 0x01, 0x01]) = false ∧
      SignatureChecker.CheckSig (fun _ => List.replicate 32 0) (fun _ _ _ => true)
        ⟨dummyTx, 0, 0⟩ [0x30, 0x06, 0x02, 0x01, 0x01, 0x02, 0x01, 0x01, 0x01]
        [0x02] [] = false :=
  ⟨by decide,
    checksig_rejects_non_forkid (fun _ => List.replicate 32 0) (fun _ _ _ => true)
      ⟨dummyTx, 0, 0⟩ _ [0x02] [] (by decide)⟩

/-- C9 — the BLAKE3 determinism scenario fails on this code: `OP_BLAKE3`
has no case in `ExecuteOpcode`'s dispatch (and no value in
`opcodetype`, rxd_script.h:19-221, whose assigned slots end at `0xed`), so
whatever byte `b ∈ [0xee, 0xff]` denotes it, running
`unlocking = []`, `locking = [push "abc", OP_DUP, b, OP_SWAP, b, OP_EQUAL]`
hits the `default` case (rxd_vm_adapter.cpp:894-896) and returns
`success = false` with `BAD_OPCODE` — contradicting the repo's own test
(src/tests/rxd/rxd_vm_tests.cpp:440-452), which requires `success = true`. -/
theorem blake3_script_bad_opcode (b : Nat) (h1 : 0xee ≤ b) (h2 : b ≤ 0xff) :
    VerifyRxdScript [] [0x03, 0x61, 0x62, 0x63, OP_DUP, b, OP_SWAP, b, OP_EQUAL] 0
      dummyTx 0 (some CreateMinimalContext) = (false, .BAD_OPCODE) := by
  interval_cases b <;> decide

/-- Witness for `blake3_script_bad_opcode` at `b = 0xee`. -/
theorem blake3_script_bad_opcode_witness :
    VerifyRxdScript [] [0x03, 0x61, 0x62, 0x63, OP_DUP, 0xee, OP_SWAP, 0xee, OP_EQUAL] 0
      dummyTx 0 (some CreateMinimalContext) = (false, .BAD_OPCODE) :=
  blake3_script_bad_opcode 0xee (by norm_num) (by norm_num)

/-- C7, counterexample — a push of length ≠ 36 under a reference opcode
does NOT cause a classification error in the execution context's summary
computation: `ComputePushRefSummary` silently skips it (the
`data.size() == 36` guards at rxd_context.cpp:74,80,86,92 have no else
branch, and the function's return type has no error channel).  Shown both
on the classification step applied to a 2-byte operand and on the whole
summary of the truncated script `[OP_PUSHINPUTREF, 0xaa, 0xbb]`, which
completes normally with every reference set empty. -/
theorem short_ref_counterexample :
    summaryStep ⟨0, [], [], [], [], [], 0xFFFFFFFF⟩ OP_PUSHINPUTREF [0xaa, 0xbb] 0
        = ⟨0, [], [], [], [], [], 0xFFFFFFFF⟩ ∧
      ComputePushRefSummary [0xd0, 0xaa, 0xbb] = ⟨0, [], [], [], [], [], 0xFFFFFFFF⟩ := by
  refine ⟨by decide, by decide⟩

/-- C6, counterexample — an out-of-range index does not make a context
query fail: `GetUtxoValue`/`GetOutputValue` return the value `0` for it
(rxd_context.cpp:154,187), and the `ScriptError` enumeration has no
`InvalidTxInputIndex`/`InvalidTxOutputIndex` variants, so the claimed
error kinds cannot be produced.  Shown on a context with one input coin
and a one-output transaction, queried at indices 5 and 7. -/
theorem context_out_of_range_counterexample :
    RxdExecutionContext.GetUtxoValue
        ⟨some ⟨2, [⟨⟨List.replicate 32 0, 0⟩, [], 0⟩], [⟨9000, [0x51]⟩], 0⟩,
         [⟨5000, [0x51], 0, false⟩], 0⟩ 5 = 0 ∧
      RxdExecutionContext.GetOutputValue
        ⟨some ⟨2, [⟨⟨List.replicate 32 0, 0⟩, [], 0⟩], [⟨9000, [0x51]⟩], 0⟩,
         [⟨5000, [0x51], 0, false⟩], 0⟩ 7 = 0 := by
  refine ⟨by decide, by decide⟩

/-- C6, amended — for every execution context and out-of-range index the
queries return default values instead of failing: `GetUtxoValue`/
`GetUtxoBytecode` return `0`/the empty script when the index is at least
the number of input coins, and `GetOutputValue`/`GetOutputBytecode`
return `0`/the empty script when the index is at least the number of
outputs (`InvalidTxInputIndex`/`InvalidTxOutputIndex` kinds do not exist
in the implementation); the interpreter's `OP_UTXOVALUE`/`OP_OUTPUTVALUE`
opcodes guard via `IsValidInputIndex`/`IsValidOutputIndex` and fail with
`InvalidStackOperation` on an out-of-range index. -/
theorem context_out_of_range_defaults :
    (∀ (ctx : RxdExecutionContext) (i : Nat), ctx.inputCoins.length ≤ i →
      ctx.GetUtxoValue i = 0 ∧ ctx.GetUtxoBytecode i = []) ∧
    (∀ (ctx : RxdExecutionContext) (j : Nat), ctx.GetOutputCount ≤ j →
      ctx.GetOutputValue j = 0 ∧ ctx.GetOutputBytecode j = []) ∧
    (∀ (ctx : RxdExecutionContext) (s : VMState) (data a : valtype) (r : List valtype),
      s.stack = a :: r →
      (s.vfExec.isEmpty || s.vfExec.headD false) = true →
      ctx.inputCoins.length ≤ toUInt32 (ScriptNumDeserialize a) →
      ExecuteOpcode (some ctx) s OP_UTXOVALUE data
        = (.INVALID_STACK_OPERATION, { s with stack := r })) ∧
    (∀ (ctx : RxdExecutionContext) (s : VMState) (data a : valtype) (r : List valtype),
      s.stack = a :: r →
      (s.vfExec.isEmpty || s.vfExec.headD false) = true →
      ctx.GetOutputCount ≤ toUInt32 (ScriptNumDeserialize a) →
      ExecuteOpcode (some ctx) s OP_OUTPUTVALUE data
        = (.INVALID_STACK_OPERATION, { s with stack := r })) := by
  refine ⟨?_, ?_, ?_, ?_⟩
  · intro ctx i hi
    constructor <;>
      simp [RxdExecutionContext.GetUtxoValue, RxdExecutionContext.GetUtxoBytecode, hi]
  · intro ctx j hj
    constructor <;>
    · cases hctx : ctx.tx with
      | none =>
        simp [RxdExecutionContext.GetOutputValue, RxdExecutionContext.GetOutputBytecode, hctx]
      | some tx =>
        rw [RxdExecutionContext.GetOutputCount, hctx] at hj
        simp [RxdExecutionContext.GetOutputValue, RxdExecutionContext.GetOutputBytecode,
          hctx, hj]
  · intro ctx s data a r hstack hexec hidx
    have hvalid : ctx.IsValidInputIndex (toUInt32 (ScriptNumDeserialize a)) = false := by
      simp [RxdExecutionContext.IsValidInputIndex]
      omega
    simp only [ExecuteOpcode, hexec, hstack, hvalid]
    norm_num [OP_IF, OP_ENDIF, OP_PUSHDATA4, OP_1, OP_16, OP_1NEGATE, OP_DUP,
      OP_DROP, OP_2DROP, OP_2DUP, OP_3DUP, OP_NIP, OP_OVER, OP_SWAP, OP_ROT,
      OP_TUCK, OP_DEPTH, OP_TOALTSTACK, OP_FROMALTSTACK, OP_IFDUP, OP_PICK,
      OP_ROLL, OP_ADD, OP_SUB, OP_MUL, OP_DIV, OP_MOD, OP_1ADD, OP_1SUB,
      OP_NEGATE, OP_ABS, OP_NOT, OP_0NOTEQUAL, OP_NUMEQUAL, OP_NUMEQUALVERIFY,
      OP_NUMNOTEQUAL, OP_LESSTHAN, OP_GREATERTHAN, OP_LESSTHANOREQUAL,
      OP_GREATERTHANOREQUAL, OP_MIN, OP_MAX, OP_WITHIN, OP_BOOLAND, OP_BOOLOR,
      OP_EQUAL, OP_EQUALVERIFY, OP_SIZE, OP_CAT, OP_SPLIT, OP_AND, OP_OR,
      OP_XOR, OP_NOTIF, OP_ELSE, OP_VERIFY, OP_RETURN, OP_NOP, OP_NOP1,
      OP_NOP4, OP_NOP5, OP_NOP6, OP_NOP7, OP_NOP8, OP_NOP9, OP_NOP10,
      OP_INPUTINDEX, OP_TXVERSION, OP_TXINPUTCOUNT, OP_TXOUTPUTCOUNT,
      OP_TXLOCKTIME, OP_UTXOVALUE]
  · intro ctx s data a r hstack hexec hidx
    have hvalid : ctx.IsValidOutputIndex (toUInt32 (ScriptNumDeserialize a)) = false := by
      rw [RxdExecutionContext.IsValidOutputIndex]
      cases hctx : ctx.tx with
      | none => rfl
      | some tx =>
        rw [RxdExecutionContext.GetOutputCount, hctx] at hidx
        have hidx2 : tx.vout.length ≤ toUInt32 (ScriptNumDeserialize a) := by
          simpa using hidx
        simp
        omega
    simp only [ExecuteOpcode, hexec, hstack, hvalid]
    norm_num [OP_IF, OP_ENDIF, OP_PUSHDATA4, OP_1, OP_16, OP_1NEGATE, OP_DUP,
      OP_DROP, OP_2DROP, OP_2DUP, OP_3DUP, OP_NIP, OP_OVER, OP_SWAP, OP_ROT,
      OP_TUCK, OP_DEPTH, OP_TOALTSTACK, OP_FROMALTSTACK, OP_IFDUP, OP_PICK,
      OP_ROLL, OP_ADD, OP_SUB, OP_MUL, OP_DIV, OP_MOD, OP_1ADD, OP_1SUB,
      OP_NEGATE, OP_ABS, OP_NOT, OP_0NOTEQUAL, OP_NUMEQUAL, OP_NUMEQUALVERIFY,
      OP_NUMNOTEQUAL, OP_LESSTHAN, OP_GREATERTHAN, OP_LESSTHANOREQUAL,
      OP_GREATERTHANOREQUAL, OP_MIN, OP_MAX, OP_WITHIN, OP_BOOLAND, OP_BOOLOR,
      OP_EQUAL, OP_EQUALVERIFY, OP_SIZE, OP_CAT, OP_SPLIT, OP_AND, OP_OR,
      OP_XOR, OP_NOTIF, OP_ELSE, OP_VERIFY, OP_RETURN, OP_NOP, OP_NOP1,
      OP_NOP4, OP_NOP5, OP_NOP6, OP_NOP7, OP_NOP8, OP_NOP9, OP_NOP10,
      OP_INPUTINDEX, OP_TXVERSION, OP_TXINPUTCOUNT, OP_TXOUTPUTCOUNT,
      OP_TXLOCKTIME, OP_UTXOVALUE, OP_UTXOBYTECODE, OP_OUTPUTVALUE]

/-- Witness for `context_out_of_range_defaults` on a one-coin,
one-output context queried at indices 5 and 7, and on `OP_UTXOVALUE`/
`OP_OUTPUTVALUE` executed over the stack `[[9]]`. -/
theorem context_out_of_range_defaults_witness :
    (RxdExecutionContext.GetUtxoValue ⟨some dummyTx, [⟨5000, [0x51], 0, false⟩], 0⟩ 5 = 0 ∧
      RxdExecutionContext.GetUtxoBytecode ⟨some dummyTx, [⟨5000, [0x51], 0, false⟩], 0⟩ 5 = []) ∧
    (RxdExecutionContext.GetOutputValue ⟨some dummyTx, [⟨5000, [0x51], 0, false⟩], 0⟩ 7 = 0 ∧
      RxdExecutionContext.GetOutputBytecode ⟨some dummyTx, [⟨5000, [0x51], 0, false⟩], 0⟩ 7 = []) ∧
    ExecuteOpcode (some ⟨some dummyTx, [⟨5000, [0x51], 0, false⟩], 0⟩)
        { VMState.initial with stack := [[9]] } OP_UTXOVALUE []
      = (.INVALID_STACK_OPERATION, VMState.initial) ∧
    ExecuteOpcode (some ⟨some dummyTx, [⟨5000, [0x51], 0, false⟩], 0⟩)
        { VMState.initial with stack := [[9]] } OP_OUTPUTVALUE []
      = (.INVALID_STACK_OPERATION, VMState.initial) := by
  refine ⟨context_out_of_range_defaults.1 _ 5 (by decide),
    context_out_of_range_defaults.2.1 _ 7 (by decide), ?_, ?_⟩
  · have := context_out_of_range_defaults.2.2.1
      ⟨some dummyTx, [⟨5000, [0x51], 0, false⟩], 0⟩
      { VMState.initial with stack := [[9]] } [] [9] [] (by decide) (by decide) (by decide)
    exact this
  · have := context_out_of_range_defaults.2.2.2
      ⟨some dummyTx, [⟨5000, [0x51], 0, false⟩], 0⟩
      { VMState.initial with stack := [[9]] } [] [9] [] (by decide) (by decide) (by decide)
    exact this

theorem mem_insertSet {r x : valtype} {s : List valtype}
    (h : r ∈ insertSet x s) : r = x ∨ r ∈ s := by
  unfold insertSet at h
  split at h
  · right; exact h
  · rcases List.mem_append.mp h with h2 | h2
    · right; exact h2
    · left; simpa using h2

theorem summaryStep_refs36 (acc : PushRefScriptSummary) (op : Nat)
    (data : valtype) (idx : Nat) (h : refs36 acc) :
    refs36 (summaryStep acc op data idx) := by
  obtain ⟨hp, hq, hd, hsg⟩ := h
  unfold summaryStep
  split_ifs <;>
    refine ⟨?_, ?_, ?_, ?_⟩ <;> intro r hr <;>
    first
      | exact hp r hr
      | exact hq r hr
      | exact hd r hr
      | exact hsg r hr
      | (rcases mem_insertSet hr with rfl | hr2
         · assumption
         · first
             | exact hp r hr2
             | exact hq r hr2
             | exact hd r hr2
             | exact hsg r hr2)

theorem summaryLoop_refs36 (script : List Nat) :
    ∀ (fuel pc : Nat) (acc : PushRefScriptSummary),
      refs36 acc → refs36 (summaryLoop script fuel pc acc) := by
  intro fuel
  induction fuel with
  | zero => intro pc acc h; exact h
  | succ fuel ih =>
    intro pc acc h
    rw [summaryLoop]
    cases hg : GetOp script pc with
    | none => exact h
    | some v =>
      obtain ⟨op, data, newPc⟩ := v
      exact ih newPc _ (summaryStep_refs36 _ _ _ _ h)

/-- C7, amended — a push operand of length ≠ 36 under a reference opcode
is never accepted into any reference set: every reference in any of the
four sets of a computed script summary is exactly 36 bytes long; and in
the interpreter the two implemented reference opcodes, `OP_PUSHINPUTREF`
and `OP_REQUIREINPUTREF`, fail with the `InvalidReference` error kind
when their operand is not 36 bytes.  (In the summary computation the
skip is silent — no error kind is produced there — and the other three
reference opcodes have no interpreter case at all, failing with
`BadOpcode` regardless of operand length.) -/
theorem short_ref_never_accepted :
    (∀ script : List Nat, refs36 (ComputePushRefSummary script)) ∧
    (∀ (ctx : Option RxdExecutionContext) (s : VMState) (data a : valtype)
        (r : List valtype),
      s.stack = a :: r → a.length ≠ 36 →
      (s.vfExec.isEmpty || s.vfExec.headD false) = true →
      ExecuteOpcode ctx s OP_PUSHINPUTREF data = (.INVALID_REFERENCE, s) ∧
      ExecuteOpcode ctx s OP_REQUIREINPUTREF data
        = (.INVALID_REFERENCE, { s with stack := r })) := by
  constructor
  · intro script
    apply summaryLoop_refs36
    refine ⟨?_, ?_, ?_, ?_⟩ <;> intro r hr <;> simp at hr
  · intro ctx s data a r hstack hlen hexec
    constructor <;>
    · simp only [ExecuteOpcode, hexec, hstack]
      norm_num [hlen, OP_IF, OP_ENDIF, OP_PUSHDATA4, OP_1, OP_16, OP_1NEGATE, OP_DUP,
        OP_DROP, OP_2DROP, OP_2DUP, OP_3DUP, OP_NIP, OP_OVER, OP_SWAP, OP_ROT,
        OP_TUCK, OP_DEPTH, OP_TOALTSTACK, OP_FROMALTSTACK, OP_IFDUP, OP_PICK,
        OP_ROLL, OP_ADD, OP_SUB, OP_MUL, OP_DIV, OP_MOD, OP_1ADD, OP_1SUB,
        OP_NEGATE, OP_ABS, OP_NOT, OP_0NOTEQUAL, OP_NUMEQUAL, OP_NUMEQUALVERIFY,
        OP_NUMNOTEQUAL, OP_LESSTHAN, OP_GREATERTHAN, OP_LESSTHANOREQUAL,
        OP_GREATERTHANOREQUAL, OP_MIN, OP_MAX, OP_WITHIN, OP_BOOLAND, OP_BOOLOR,
        OP_EQUAL, OP_EQUALVERIFY, OP_SIZE, OP_CAT, OP_SPLIT, OP_AND, OP_OR,
        OP_XOR, OP_NOTIF, OP_ELSE, OP_VERIFY, OP_RETURN, OP_NOP, OP_NOP1,
        OP_NOP4, OP_NOP5, OP_NOP6, OP_NOP7, OP_NOP8, OP_NOP9, OP_NOP10,
        OP_INPUTINDEX, OP_TXVERSION, OP_TXINPUTCOUNT, OP_TXOUTPUTCOUNT,
        OP_TXLOCKTIME, OP_UTXOVALUE, OP_UTXOBYTECODE, OP_OUTPUTVALUE,
        OP_OUTPUTBYTECODE, OP_INPUTSEQUENCENUMBER, OP_STATESEPARATOR,
        OP_PUSHINPUTREF, OP_REQUIREINPUTREF]

/-- Witness for `short_ref_never_accepted`: a 36-byte reference accepted
from a concrete script is 36 bytes long, and the two reference opcodes
executed over a 2-byte stack top fail with `InvalidReference`. -/
theorem short_ref_never_accepted_witness :
    (List.replicate 36 7 ∈
        (ComputePushRefSummary ([0xd0] ++ List.replicate 36 7)).pushRefSet ∧
      (List.replicate 36 7 : valtype).length = 36) ∧
    ExecuteOpcode none { VMState.initial with stack := [[0xaa, 0xbb]] }
        OP_PUSHINPUTREF []
      = (.INVALID_REFERENCE, { VMState.initial with stack := [[0xaa, 0xbb]] }) ∧
    ExecuteOpcode none { VMState.initial with stack := [[0xaa, 0xbb]] }
        OP_REQUIREINPUTREF []
      = (.INVALID_REFERENCE, VMState.initial) := by
  have h2 := short_ref_never_accepted.2 none
    { VMState.initial with stack := [[0xaa, 0xbb]] } [] [0xaa, 0xbb] []
    (by decide) (by decide) (by decide)
  exact ⟨⟨by decide,
    (short_ref_never_accepted.1 ([0xd0] ++ List.replicate 36 7)).1 _ (by decide)⟩,
    h2.1, h2.2⟩

/-- A `Step()` that does not begin on a finished state appends exactly
one snapshot — the pre-step `currentState` — to the history, whatever
else it does. -/
theorem step_history_cons (m : Machine) (h : m.currentState.done = false) :
    m.step.2.history = m.currentState :: m.history := by
  unfold Machine.step
  simp only [h, Bool.false_eq_true, if_false]
  repeat' split
  all_goals rfl

theorem rewind_of_cons (m : Machine) (c : VMState) (hs : List VMState)
    (hh : m.history = c :: hs) :
    m.rewind = (true, { m with currentState := c, history := hs }) := by
  unfold Machine.rewind
  rw [hh]

/-- After `k` non-finishing steps the history holds the `k` pre-step
snapshots, newest first, on top of whatever history was there before. -/
theorem stepN_history (m : Machine) (k : Nat)
    (hrun : ∀ j, j < k → (Machine.stepN j m).currentState.done = false) :
    (Machine.stepN k m).history
      = ((List.range k).map (fun j => (Machine.stepN j m).currentState)).reverse
        ++ m.history := by
  induction k with
  | zero => simp [Machine.stepN]
  | succ k ih =>
    have hk : ∀ j, j < k → (Machine.stepN j m).currentState.done = false :=
      fun j hj => hrun j (by omega)
    have hdone := hrun k (by omega)
    show (Machine.stepN k m).step.2.history = _
    rw [step_history_cons _ hdone, ih hk, List.range_succ, List.map_append,
      List.reverse_append]
    simp

/-- Rewinding as many times as there are prefixed snapshots pops them
all: the live state ends at the oldest snapshot, the rest of the history
is exposed, and every intermediate `Rewind()` returns `true`. -/
theorem rewindN_of_history (pre : List VMState) :
    ∀ (x : Machine) (h : List VMState), x.history = pre ++ h →
      (Machine.rewindN pre.length x).currentState = pre.getLastD x.currentState ∧
      (Machine.rewindN pre.length x).history = h ∧
      ∀ j, j < pre.length → ((Machine.rewindN j x).rewind).1 = true := by
  induction pre with
  | nil =>
    intro x h hx
    refine ⟨rfl, by simpa using hx, ?_⟩
    intro j hj
    simp only [List.length_nil] at hj
    omega
  | cons c pre ih =>
    intro x h hx
    have hr := rewind_of_cons x c (pre ++ h) (by simpa using hx)
    obtain ⟨ih1, ih2, ih3⟩ :=
      ih { x with currentState := c, history := pre ++ h } h rfl
    have ih1' : (Machine.rewindN pre.length
        { x with currentState := c, history := pre ++ h }).currentState
        = pre.getLastD c := ih1
    have hstep : ∀ j, Machine.rewindN (j + 1) x
        = Machine.rewindN j { x with currentState := c, history := pre ++ h } := by
      intro j
      show Machine.rewindN j x.rewind.2 = _
      rw [hr]
    refine ⟨?_, ?_, ?_⟩
    · show (Machine.rewindN (pre.length + 1) x).currentState
        = (c :: pre).getLastD x.currentState
      rw [hstep pre.length, ih1', List.getLastD_cons]
    · show (Machine.rewindN (pre.length + 1) x).history = h
      rw [hstep pre.length, ih2]
    · intro j hj
      rcases j with _ | j
      · show x.rewind.1 = true
        rw [hr]
      · rw [show Machine.rewindN (j + 1) x = Machine.rewindN j
            { x with currentState := c, history := pre ++ h } from hstep j]
        refine ih3 j ?_
        simp only [List.length_cons] at hj
        omega



/-- C3 — rewind symmetry: for every adapter whose script runs for `n`
steps (the first `n` `Step()` calls each begin with `done = false`) and
every `k ≤ n`, calling `Step()` `k` times from the initial state
(history empty, as `Reset()` leaves it) and then `Rewind()` `k` times
restores the live VM state — the whole `VMState`: stacks, altstack,
script, program counter, condition stack, done/success/error — to be
identical to the initial state, and every `Rewind()` in the sequence
returns `true`.  (`Step` pushes the pre-step snapshot before any
mutation, rxd_vm_adapter.cpp:141, and `Rewind` pops it back,
rxd_vm_adapter.cpp:205-212.) -/
theorem step_rewind_symmetry (m : Machine) (n k : Nat) (hk : k ≤ n)
    (hinit : m.history = [])
    (hrun : ∀ j, j < n → (Machine.stepN j m).currentState.done = false) :
    (Machine.rewindN k (Machine.stepN k m)).currentState = m.currentState ∧
    ∀ j, j < k → ((Machine.rewindN j (Machine.stepN k m)).rewind).1 = true := by
  have hrunk : ∀ j, j < k → (Machine.stepN j m).currentState.done = false :=
    fun j hj => hrun j (by omega)
  have hh := stepN_history m k hrunk
  rw [hinit, List.append_nil] at hh
  have hlen : (((List.range k).map
      (fun j => (Machine.stepN j m).currentState)).reverse).length = k := by
    simp
  obtain ⟨h1, h2, h3⟩ := rewindN_of_history
    (((List.range k).map (fun j => (Machine.stepN j m).currentState)).reverse)
    (Machine.stepN k m) [] (by rw [hh, List.append_nil])
  constructor
  · rw [hlen] at h1
    rw [h1]
    rcases Nat.eq_zero_or_pos k with hk0 | hkpos
    · subst hk0
      simp [Machine.stepN]
    · obtain ⟨q, rfl⟩ : ∃ q, k = q + 1 := ⟨k - 1, by omega⟩
      rw [List.getLastD_eq_getLast?, List.getLast?_reverse, List.range_succ_eq_map]
      simp [Machine.stepN]
  · intro j hj
    exact h3 j (by rw [hlen]; exact hj)

/-- Witness for `step_rewind_symmetry`: the three-opcode script
`[OP_1, OP_2, OP_ADD]` stepped twice and rewound twice. -/
theorem step_rewind_symmetry_witness :
    (2 ≤ 3 ∧ (Machine.init [] [0x51, 0x52, 0x93] dummyTx 0 0 none).history = [] ∧
      ∀ j, j < 3 → (Machine.stepN j
        (Machine.init [] [0x51, 0x52, 0x93] dummyTx 0 0 none)).currentState.done = false) ∧
    (Machine.rewindN 2 (Machine.stepN 2
        (Machine.init [] [0x51, 0x52, 0x93] dummyTx 0 0 none))).currentState
      = (Machine.init [] [0x51, 0x52, 0x93] dummyTx 0 0 none).currentState ∧
    ∀ j, j < 2 → ((Machine.rewindN j (Machine.stepN 2
        (Machine.init [] [0x51, 0x52, 0x93] dummyTx 0 0 none))).rewind).1 = true :=
  ⟨⟨by norm_num, by decide, by decide⟩,
    step_rewind_symmetry (Machine.init [] [0x51, 0x52, 0x93] dummyTx 0 0 none)
      3 2 (by norm_num) (by decide) (by decide)⟩

/-- `ReadLE32` recovers what `WriteLE32` wrote. -/
theorem readLE32_writeLE32 (v : Nat) (hv : v < 2 ^ 32) (r : List Nat) :
    readLE32 (writeLE32 v ++ r) = some (v, r) := by
  simp only [writeLE32, List.cons_append, List.nil_append, readLE32,
    Option.some.injEq, Prod.mk.injEq]
  exact ⟨by omega, trivial⟩

/-- `ReadLE64` recovers what `WriteLE64` wrote. -/
theorem readLE64_writeLE64 (u : Nat) (hu : u < 2 ^ 64) (r : List Nat) :
    readLE64 (writeLE64Nat u ++ r) = some (u, r) := by
  simp only [writeLE64Nat, List.cons_append, List.nil_append, readLE64,
    Option.some.injEq, Prod.mk.injEq]
  exact ⟨by omega, trivial⟩

/-- `ReadVarInt` recovers what `WriteVarInt` wrote, for every value a
`uint64_t` can carry. -/
theorem readVarInt_writeVarInt (n : Nat) (hn : n < 2 ^ 64) (r : List Nat) :
    readVarInt (WriteVarInt n ++ r) = some (n, r) := by
  unfold WriteVarInt
  split_ifs with h1 h2 h3
  · simp [readVarInt, h1]
  · simp only [List.cons_append, List.nil_append, readVarInt]
    norm_num
    omega
  · simp only [List.cons_append, readVarInt]
    norm_num
    exact readLE32_writeLE32 n (by omega) r
  · simp only [List.cons_append, readVarInt]
    norm_num
    exact readLE64_writeLE64 n (by omega) r

/-- `ReadBytes` consumes exactly the prefix it is asked for. -/
theorem readBytes_append (xs r : List Nat) :
    readBytes xs.length (xs ++ r) = some (xs, r) := by
  unfold readBytes
  rw [if_neg (by simp)]
  rw [List.take_left, List.drop_left]

theorem readBytes_of_len (n : Nat) (xs r : List Nat) (h : xs.length = n) :
    readBytes n (xs ++ r) = some (xs, r) := by
  subst h
  exact readBytes_append xs r

/-- The `int64_t` → `uint64_t` → `int64_t` cast round trip. -/
theorem toInt64_toUInt64 (v : Int) (h1 : -2 ^ 63 ≤ v) (h2 : v < 2 ^ 63) :
    toInt64 (toUInt64 v) = v := by
  unfold toInt64 toUInt64
  omega

/-- The `int32_t` → `uint32_t` → `int32_t` cast round trip. -/
theorem toInt32_emod (v : Int) (h1 : -2 ^ 31 ≤ v) (h2 : v < 2 ^ 31) :
    toInt32 ((v % (2 ^ 32)).toNat) = v := by
  unfold toInt32
  omega

theorem emod32_lt (v : Int) : ((v % (2 ^ 32)).toNat : Nat) < 2 ^ 32 := by
  omega

/-- The input-reading loop recovers the serialized input list. -/
theorem readInputs_round (ins : List CRxdTxIn) (r : List Nat)
    (h : ∀ i ∈ ins, i.prevout.txid.length = 32 ∧ i.prevout.n < 2 ^ 32 ∧
      i.nSequence < 2 ^ 32 ∧ i.scriptSig.length < 2 ^ 64) :
    readInputs ins.length
      ((ins.flatMap fun i =>
          i.prevout.txid ++ writeLE32 i.prevout.n
          ++ WriteVarInt i.scriptSig.length ++ i.scriptSig
          ++ writeLE32 i.nSequence) ++ r)
      = some (ins, r) := by
  induction ins with
  | nil => simp [readInputs]
  | cons i ins ih =>
    obtain ⟨h32, hn, hseq, hslen⟩ := h i (List.mem_cons_self _ _)
    have hrest := fun j hj => h j (List.mem_cons_of_mem i hj)
    have hb : ∀ X, readBytes 32 (i.prevout.txid ++ X) = some (i.prevout.txid, X) :=
      fun X => readBytes_of_len 32 _ X h32
    have hr1 : ∀ X, readLE32 (writeLE32 i.prevout.n ++ X) = some (i.prevout.n, X) :=
      readLE32_writeLE32 _ hn
    have hr2 : ∀ X, readVarInt (WriteVarInt i.scriptSig.length ++ X)
        = some (i.scriptSig.length, X) := readVarInt_writeVarInt _ hslen
    have hr3 : ∀ X, readBytes i.scriptSig.length (i.scriptSig ++ X)
        = some (i.scriptSig, X) := readBytes_append i.scriptSig
    have hr4 : ∀ X, readLE32 (writeLE32 i.nSequence ++ X) = some (i.nSequence, X) :=
      readLE32_writeLE32 _ hseq
    have ih' := ih hrest
    simp only [List.append_assoc] at ih'
    simp only [List.flatMap_cons, List.append_assoc, List.length_cons, readInputs,
      hb, hr1, hr2, hr3, hr4, ih', Option.bind_eq_bind, Option.some_bind]

/-- The output-reading loop recovers the serialized output list. -/
theorem readOutputs_round (outs : List CRxdTxOut) (r : List Nat)
    (h : ∀ o ∈ outs, -2 ^ 63 ≤ o.nValue ∧ o.nValue < 2 ^ 63 ∧
      o.scriptPubKey.length < 2 ^ 64) :
    readOutputs outs.length
      ((outs.flatMap fun o =>
          writeLE64Nat (toUInt64 o.nValue)
          ++ WriteVarInt o.scriptPubKey.length ++ o.scriptPubKey) ++ r)
      = some (outs, r) := by
  induction outs with
  | nil => simp [readOutputs]
  | cons o outs ih =>
    obtain ⟨hlo, hhi, hslen⟩ := h o (List.mem_cons_self _ _)
    have hrest := fun j hj => h j (List.mem_cons_of_mem o hj)
    have hu : toUInt64 o.nValue < 2 ^ 64 := by
      unfold toUInt64
      omega
    have hr1 : ∀ X, readLE64 (writeLE64Nat (toUInt64 o.nValue) ++ X)
        = some (toUInt64 o.nValue, X) := readLE64_writeLE64 _ hu
    have hr2 : ∀ X, readVarInt (WriteVarInt o.scriptPubKey.length ++ X)
        = some (o.scriptPubKey.length, X) := readVarInt_writeVarInt _ hslen
    have hr3 : ∀ X, readBytes o.scriptPubKey.length (o.scriptPubKey ++ X)
        = some (o.scriptPubKey, X) := readBytes_append o.scriptPubKey
    have ih' := ih hrest
    simp only [List.append_assoc] at ih'
    simp only [List.flatMap_cons, List.append_assoc, List.length_cons, readOutputs,
      hr1, hr2, hr3, ih', Option.bind_eq_bind, Option.some_bind,
      toInt64_toUInt64 o.nValue hlo hhi]

/-- C8 — transaction wire-format round trip: for every well-formed
transaction (32-byte txids, counts and scalar fields in range),
`CRxdTx::Deserialize(tx.Serialize())` yields `tx` again, field by field —
version, inputs with outpoint/scriptSig/sequence, outputs with
value/scriptPubKey, and locktime. -/
theorem tx_serialize_roundtrip (tx : CRxdTx) (h : WellFormedTx tx) :
    CRxdTx.Deserialize tx.Serialize = some tx := by
  obtain ⟨hv1, hv2, hlock, hvin, hvout, hins, houts⟩ := h
  unfold CRxdTx.Serialize CRxdTx.Deserialize
  have hr1 : ∀ X, readLE32 (writeLE32 ((tx.nVersion % (2 ^ 32)).toNat) ++ X)
      = some ((tx.nVersion % (2 ^ 32)).toNat, X) :=
    readLE32_writeLE32 _ (emod32_lt tx.nVersion)
  have hr2 : ∀ X, readVarInt (WriteVarInt tx.vin.length ++ X)
      = some (tx.vin.length, X) := readVarInt_writeVarInt _ (by omega)
  have hr3 := readInputs_round tx.vin
  have hr4 : ∀ X, readVarInt (WriteVarInt tx.vout.length ++ X)
      = some (tx.vout.length, X) := readVarInt_writeVarInt _ (by omega)
  have hr5 := readOutputs_round tx.vout
  have hr6 : ∀ X, readLE32 (writeLE32 tx.nLockTime ++ X)
      = some (tx.nLockTime, X) := readLE32_writeLE32 _ (by omega)
  have hr3' := fun (r : List Nat) => hr3 r hins
  have hr5' := fun (r : List Nat) => hr5 r houts
  simp only [List.append_assoc] at hr3' hr5'
  have hr6' : readLE32 (writeLE32 tx.nLockTime) = some (tx.nLockTime, []) := by
    have := hr6 []
    rwa [List.append_nil] at this
  simp only [List.append_assoc, hr1, hr2, hr3', hr4, hr5', hr6, hr6',
    Option.bind_eq_bind, Option.some_bind, toInt32_emod tx.nVersion hv1 hv2]

/-- Witness for `tx_serialize_roundtrip` on a one-input, one-output
transaction. -/
theorem tx_serialize_roundtrip_witness :
    WellFormedTx ⟨2, [⟨⟨List.replicate 32 5, 1⟩, [0x51], 0xfffffffe⟩],
        [⟨1000, [0x76, 0xa9]⟩], 7⟩ ∧
      CRxdTx.Deserialize
          (CRxdTx.Serialize ⟨2, [⟨⟨List.replicate 32 5, 1⟩, [0x51], 0xfffffffe⟩],
            [⟨1000, [0x76, 0xa9]⟩], 7⟩)
        = some ⟨2, [⟨⟨List.replicate 32 5, 1⟩, [0x51], 0xfffffffe⟩],
            [⟨1000, [0x76, 0xa9]⟩], 7⟩ :=
  ⟨by unfold WellFormedTx; decide,
    tx_serialize_roundtrip _ (by unfold WellFormedTx; decide)⟩

end Rxd
